import Mathlib

/-!
Verification of the cdk-dashboard resource-discovery and dashboard-assembly
pipeline.  The definitions below are a shallow embedding of the TypeScript
sources: `src/metrics/*.ts` (the per-kind metric providers and the metric
factory), `src/index.ts` (the `CdkDashboard` aspect with its type guards and
per-visit rebuild), and `src/dashboard/dashboard-aspect.ts` (the
`DashboardAspect` variant with inclusion flags and one-shot generation).

Conventions of the embedding:
- A TypeScript value that may be `undefined` is an `Option`.
- A property read or method call that may throw is an `Except Unit` value;
  the `try { ... } catch { }` blocks of the providers become explicit
  matches that keep whatever was pushed before the failing step.
- JavaScript truthiness of `a || b` on strings is `jsOrOpt` / `jsOrD`
  (the empty string is falsy); on numbers it is `jsOrNat` (zero is falsy).
-/

/-- JavaScript `a || b` for two possibly-undefined strings: returns `a`
when `a` is defined and truthy (non-empty), otherwise `b`. -/
def jsOrOpt (a b : Option String) : Option String :=
  match a with
  | some s => if s = "" then b else some s
  | none => b

/-- JavaScript `a || d` for a possibly-undefined string and a literal
default, as in `table.tableName || "unknown-table"`. -/
def jsOrD (a : Option String) (d : String) : String :=
  match a with
  | some s => if s = "" then d else s
  | none => d

/-- JavaScript `a || d` for a possibly-undefined number and a literal
default, as in `options.periodHours || 3` (zero is falsy). -/
def jsOrNat (a : Option Nat) (d : Nat) : Nat :=
  match a with
  | some k => if k = 0 then d else k
  | none => d

/-- A CloudWatch metric descriptor.  `factoryMetric` is a metric built by
`MetricFactory.createMetric` (which stamps the default statistic and the
default five-minute period); `methodMetric` is an opaque metric object
returned by a resource-owned metric method such as
`lambda.metricInvocations()`. -/
inductive IMetric where
  | factoryMetric (metricNamespace metricName : String)
      (dimensions : List (String × Option String))
      (statistic : String) (periodMinutes : Nat)
  | methodMetric (tag : Nat)
  deriving Repr, DecidableEq

/-- A CloudWatch graph widget descriptor, as built by
`MetricFactory.createGraphWidget`. -/
structure GraphWidget where
  title : String
  metrics : List IMetric
  width : Nat
  height : Nat
  liveData : Bool
  periodHours : Nat
  deriving Repr, DecidableEq

/-- The metric factory (`src/metrics/metric-factory.ts`): holds the
configured dashboard-wide period. -/
structure MetricFactory where
  periodHours : Nat
  deriving Repr, DecidableEq

/-- `MetricFactory.createMetric`: statistic defaults to Average and the
per-metric period to five minutes; the providers never override either. -/
def MetricFactory.createMetric (_mf : MetricFactory)
    (metricNamespace metricName : String)
    (dimensions : List (String × Option String)) : IMetric :=
  .factoryMetric metricNamespace metricName dimensions "Average" 5

/-- `MetricFactory.createGraphWidget`: width defaults to 24, height to 6,
liveData to true, and the widget period to the configured factory period. -/
def MetricFactory.createGraphWidget (mf : MetricFactory)
    (title : String) (metrics : List IMetric) (width : Option Nat) :
    GraphWidget :=
  { title := title, metrics := metrics, width := width.getD 24,
    height := 6, liveData := true, periodHours := mf.periodHours }

deriving instance DecidableEq for Except

/-- A Lambda function as seen by `LambdaMetricProvider`
(`src/metrics/lambda-metric-provider.ts`): reading `functionName` may
throw; each `metricX` field is `none` when the resource has no such method
(the provider then falls back to the factory), or the result of calling
the method (which itself may throw). -/
structure LambdaRes where
  functionName : Except Unit (Option String)
  metricInvocations : Option (Except Unit IMetric) := none
  metricDuration : Option (Except Unit IMetric) := none
  metricErrors : Option (Except Unit IMetric) := none
  metricThrottles : Option (Except Unit IMetric) := none
  deriving Repr, DecidableEq

namespace LambdaMetricProvider

/-- The invocation-metric step of the per-function loop body. -/
def invMetric (mf : MetricFactory) (f : LambdaRes) : Except Unit IMetric :=
  match f.metricInvocations with
  | some r => r
  | none => do
      let n ← f.functionName
      pure (mf.createMetric "AWS/Lambda" "Invocations" [("FunctionName", n)])

/-- The duration-metric step of the per-function loop body. -/
def durMetric (mf : MetricFactory) (f : LambdaRes) : Except Unit IMetric :=
  match f.metricDuration with
  | some r => r
  | none => do
      let n ← f.functionName
      pure (mf.createMetric "AWS/Lambda" "Duration" [("FunctionName", n)])

/-- The error-metric step of the per-function loop body. -/
def errMetric (mf : MetricFactory) (f : LambdaRes) : Except Unit IMetric :=
  match f.metricErrors with
  | some r => r
  | none => do
      let n ← f.functionName
      pure (mf.createMetric "AWS/Lambda" "Errors" [("FunctionName", n)])

/-- The throttle-metric step of the per-function loop body. -/
def thrMetric (mf : MetricFactory) (f : LambdaRes) : Except Unit IMetric :=
  match f.metricThrottles with
  | some r => r
  | none => do
      let n ← f.functionName
      pure (mf.createMetric "AWS/Lambda" "Throttles" [("FunctionName", n)])

/-- The four accumulator arrays of `LambdaMetricProvider.createWidgets`. -/
structure Acc where
  inv : List IMetric := []
  dur : List IMetric := []
  err : List IMetric := []
  thr : List IMetric := []
  deriving Repr, DecidableEq

/-- One iteration of the `functions.forEach` loop: the `try` block pushes
the four metrics in order; a throw keeps the pushes made so far and moves
on to the next function. -/
def visitOne (mf : MetricFactory) (acc : Acc) (f : LambdaRes) : Acc :=
  match invMetric mf f with
  | .error _ => acc
  | .ok m1 =>
    let acc1 := { acc with inv := acc.inv ++ [m1] }
    match durMetric mf f with
    | .error _ => acc1
    | .ok m2 =>
      let acc2 := { acc1 with dur := acc1.dur ++ [m2] }
      match errMetric mf f with
      | .error _ => acc2
      | .ok m3 =>
        let acc3 := { acc2 with err := acc2.err ++ [m3] }
        match thrMetric mf f with
        | .error _ => acc3
        | .ok m4 => { acc3 with thr := acc3.thr ++ [m4] }

/-- `LambdaMetricProvider.createWidgets`. -/
def createWidgets (mf : MetricFactory) (functions : List LambdaRes) :
    List GraphWidget :=
  if functions.length = 0 then []
  else
    let acc := functions.foldl (visitOne mf) {}
    [ mf.createGraphWidget "Lambda - Invocations" acc.inv (some 6),
      mf.createGraphWidget "Lambda - Duration (ms)" acc.dur (some 6),
      mf.createGraphWidget "Lambda - Errors" acc.err (some 6),
      mf.createGraphWidget "Lambda - Throttles" acc.thr (some 6) ]

end LambdaMetricProvider

/-- A DynamoDB table as seen by `DynamoDBMetricProvider`
(`src/metrics/dynamodb-metric-provider.ts`): reading `tableName` is the
first statement of the `try` block and may throw; the two capacity metric
methods may be absent (factory fallback) or may throw when called. -/
structure TableRes where
  tableName : Except Unit (Option String)
  metricConsumedReadCapacityUnits : Option (Except Unit IMetric) := none
  metricConsumedWriteCapacityUnits : Option (Except Unit IMetric) := none
  deriving Repr, DecidableEq

namespace DynamoDBMetricProvider

/-- The six accumulator arrays of `DynamoDBMetricProvider.createWidgets`. -/
structure Acc where
  readCap : List IMetric := []
  writeCap : List IMetric := []
  readThr : List IMetric := []
  writeThr : List IMetric := []
  query : List IMetric := []
  scan : List IMetric := []
  deriving Repr, DecidableEq

/-- The read-capacity step of the per-table loop body. -/
def readCapMetric (mf : MetricFactory) (dims : List (String × Option String))
    (t : TableRes) : Except Unit IMetric :=
  match t.metricConsumedReadCapacityUnits with
  | some r => r
  | none => .ok (mf.createMetric "AWS/DynamoDB" "ConsumedReadCapacityUnits" dims)

/-- The write-capacity step of the per-table loop body. -/
def writeCapMetric (mf : MetricFactory) (dims : List (String × Option String))
    (t : TableRes) : Except Unit IMetric :=
  match t.metricConsumedWriteCapacityUnits with
  | some r => r
  | none => .ok (mf.createMetric "AWS/DynamoDB" "ConsumedWriteCapacityUnits" dims)

/-- One iteration of the `tables.forEach` loop: the table name is read
first (a throw skips the whole table), then read capacity, write capacity,
the two throttle metrics and the query/scan latency metrics are pushed in
order; a throw keeps the pushes made so far. -/
def visitOne (mf : MetricFactory) (acc : Acc) (t : TableRes) : Acc :=
  match t.tableName with
  | .error _ => acc
  | .ok nOpt =>
    let dims : List (String × Option String) :=
      [("TableName", some (jsOrD nOpt "unknown-table"))]
    match readCapMetric mf dims t with
    | .error _ => acc
    | .ok mr =>
      let acc1 := { acc with readCap := acc.readCap ++ [mr] }
      match writeCapMetric mf dims t with
      | .error _ => acc1
      | .ok mw =>
        { acc1 with
          writeCap := acc1.writeCap ++ [mw],
          readThr := acc1.readThr ++
            [mf.createMetric "AWS/DynamoDB" "ReadThrottleEvents" dims],
          writeThr := acc1.writeThr ++
            [mf.createMetric "AWS/DynamoDB" "WriteThrottleEvents" dims],
          query := acc1.query ++
            [mf.createMetric "AWS/DynamoDB" "SuccessfulRequestLatency"
              (dims ++ [("Operation", some "Query")])],
          scan := acc1.scan ++
            [mf.createMetric "AWS/DynamoDB" "SuccessfulRequestLatency"
              (dims ++ [("Operation", some "Scan")])] }

/-- `DynamoDBMetricProvider.createWidgets`: four widgets, with read+write
capacity and read+write throttles each combined into a single widget. -/
def createWidgets (mf : MetricFactory) (tables : List TableRes) :
    List GraphWidget :=
  if tables.length = 0 then []
  else
    let acc := tables.foldl (visitOne mf) {}
    [ mf.createGraphWidget "DynamoDB - Capacity Units"
        (acc.readCap ++ acc.writeCap) (some 6),
      mf.createGraphWidget "DynamoDB - Throttle Events"
        (acc.readThr ++ acc.writeThr) (some 6),
      mf.createGraphWidget "DynamoDB - Query Latency" acc.query (some 6),
      mf.createGraphWidget "DynamoDB - Scan Latency" acc.scan (some 6) ]

end DynamoDBMetricProvider

/-- An SNS topic as seen by `SNSMetricProvider` (unnamed source file,
`SNSMetricProvider.createWidgets`): reading `topicName` is the first
statement of the `try` block and may throw. -/
structure TopicRes where
  topicName : Except Unit (Option String)
  deriving Repr, DecidableEq

namespace SNSMetricProvider

/-- The three accumulator arrays of `SNSMetricProvider.createWidgets`. -/
structure Acc where
  publish : List IMetric := []
  delivery : List IMetric := []
  failure : List IMetric := []
  deriving Repr, DecidableEq

/-- One iteration of the `topics.forEach` loop: a throw while reading the
topic name skips the topic; otherwise all three metrics are pushed. -/
def visitOne (mf : MetricFactory) (acc : Acc) (t : TopicRes) : Acc :=
  match t.topicName with
  | .error _ => acc
  | .ok nOpt =>
    let dims : List (String × Option String) :=
      [("TopicName", some (jsOrD nOpt "unknown-topic"))]
    { acc with
      publish := acc.publish ++
        [mf.createMetric "AWS/SNS" "NumberOfMessagesPublished" dims],
      delivery := acc.delivery ++
        [mf.createMetric "AWS/SNS" "NumberOfNotificationsDelivered" dims],
      failure := acc.failure ++
        [mf.createMetric "AWS/SNS" "NumberOfNotificationsFailed" dims] }

/-- `SNSMetricProvider.createWidgets`. -/
def createWidgets (mf : MetricFactory) (topics : List TopicRes) :
    List GraphWidget :=
  if topics.length = 0 then []
  else
    let acc := topics.foldl (visitOne mf) {}
    [ mf.createGraphWidget "SNS - Published Messages" acc.publish (some 8),
      mf.createGraphWidget "SNS - Notifications Delivered" acc.delivery (some 8),
      mf.createGraphWidget "SNS - Notifications Failed" acc.failure (some 8) ]

end SNSMetricProvider

/-- An SQS queue as seen by `SQSMetricProvider`
(`src/metrics/sqs-metric-provider.ts`): reading `queueName` is the first
statement of the `try` block and may throw. -/
structure QueueRes where
  queueName : Except Unit (Option String)
  deriving Repr, DecidableEq

namespace SQSMetricProvider

/-- The four accumulator arrays of `SQSMetricProvider.createWidgets`. -/
structure Acc where
  sent : List IMetric := []
  received : List IMetric := []
  visible : List IMetric := []
  oldestAge : List IMetric := []
  deriving Repr, DecidableEq

/-- One iteration of the `queues.forEach` loop: a throw while reading the
queue name skips the queue; otherwise all four metrics are pushed. -/
def visitOne (mf : MetricFactory) (acc : Acc) (q : QueueRes) : Acc :=
  match q.queueName with
  | .error _ => acc
  | .ok nOpt =>
    let dims : List (String × Option String) :=
      [("QueueName", some (jsOrD nOpt "unknown-queue"))]
    { acc with
      sent := acc.sent ++
        [mf.createMetric "AWS/SQS" "NumberOfMessagesSent" dims],
      received := acc.received ++
        [mf.createMetric "AWS/SQS" "NumberOfMessagesReceived" dims],
      visible := acc.visible ++
        [mf.createMetric "AWS/SQS" "ApproximateNumberOfMessagesVisible" dims],
      oldestAge := acc.oldestAge ++
        [mf.createMetric "AWS/SQS" "ApproximateAgeOfOldestMessage" dims] }

/-- `SQSMetricProvider.createWidgets`. -/
def createWidgets (mf : MetricFactory) (queues : List QueueRes) :
    List GraphWidget :=
  if queues.length = 0 then []
  else
    let acc := queues.foldl (visitOne mf) {}
    [ mf.createGraphWidget "SQS - Messages Sent" acc.sent (some 6),
      mf.createGraphWidget "SQS - Messages Received" acc.received (some 6),
      mf.createGraphWidget "SQS - Visible Messages" acc.visible (some 6),
      mf.createGraphWidget "SQS - Age of Oldest Message (seconds)"
        acc.oldestAge (some 6) ]

end SQSMetricProvider

/-- An API Gateway REST API as seen by `ApiGatewayMetricProvider`
(`src/metrics/api-gateway-metric-provider.ts`): reading `restApiName` is
the first statement of the `try` block and may throw. -/
structure RestApiRes where
  restApiName : Except Unit (Option String)
  deriving Repr, DecidableEq

namespace ApiGatewayMetricProvider

/-- The four accumulator arrays of `ApiGatewayMetricProvider.createWidgets`. -/
structure Acc where
  requestCount : List IMetric := []
  latency : List IMetric := []
  error4xx : List IMetric := []
  error5xx : List IMetric := []
  deriving Repr, DecidableEq

/-- One iteration of the `apis.forEach` loop: a throw while reading the
API name skips the API; otherwise all four metrics are pushed. -/
def visitOne (mf : MetricFactory) (acc : Acc) (a : RestApiRes) : Acc :=
  match a.restApiName with
  | .error _ => acc
  | .ok nOpt =>
    let dims : List (String × Option String) :=
      [("ApiName", some (jsOrD nOpt "unknown-api"))]
    { acc with
      requestCount := acc.requestCount ++
        [mf.createMetric "AWS/ApiGateway" "Count" dims],
      latency := acc.latency ++
        [mf.createMetric "AWS/ApiGateway" "Latency" dims],
      error4xx := acc.error4xx ++
        [mf.createMetric "AWS/ApiGateway" "4XXError" dims],
      error5xx := acc.error5xx ++
        [mf.createMetric "AWS/ApiGateway" "5XXError" dims] }

/-- `ApiGatewayMetricProvider.createWidgets` (no width override: the
factory default of 24 applies). -/
def createWidgets (mf : MetricFactory) (apis : List RestApiRes) :
    List GraphWidget :=
  if apis.length = 0 then []
  else
    let acc := apis.foldl (visitOne mf) {}
    [ mf.createGraphWidget "API Gateway - Request Count" acc.requestCount none,
      mf.createGraphWidget "API Gateway - Latency (ms)" acc.latency none,
      mf.createGraphWidget "API Gateway - 4XX Errors" acc.error4xx none,
      mf.createGraphWidget "API Gateway - 5XX Errors" acc.error5xx none ]

end ApiGatewayMetricProvider

/-- An API Gateway method as seen by `ApiMethodMetricProvider`
(`src/metrics/api-method-metric-provider.ts`): evaluating
`method.resource.path` may throw (for example when `resource` is absent),
and the path itself may be undefined; `httpMethod` is a plain
possibly-undefined property. -/
structure MethodRes where
  resourcePath : Except Unit (Option String)
  httpMethod : Option String := none
  deriving Repr, DecidableEq

namespace ApiMethodMetricProvider

/-- The four accumulator arrays of `ApiMethodMetricProvider.createWidgets`. -/
structure Acc where
  requestCount : List IMetric := []
  latency : List IMetric := []
  error4xx : List IMetric := []
  error5xx : List IMetric := []
  deriving Repr, DecidableEq

/-- The dimension map used for every metric of one method: `ApiName` is
the resource path (fallback `unknown-api`) and `Method` the HTTP verb
(fallback `unknown-method`). -/
def methodDims (pathOpt : Option String) (httpMethod : Option String) :
    List (String × Option String) :=
  [("ApiName", some (jsOrD pathOpt "unknown-api")),
   ("Method", some (jsOrD httpMethod "unknown-method"))]

/-- One iteration of the `methods.forEach` loop: a throw while evaluating
`method.resource.path` skips the method; otherwise all four metrics are
pushed. -/
def visitOne (mf : MetricFactory) (acc : Acc) (m : MethodRes) : Acc :=
  match m.resourcePath with
  | .error _ => acc
  | .ok pOpt =>
    let dims := methodDims pOpt m.httpMethod
    { acc with
      requestCount := acc.requestCount ++
        [mf.createMetric "AWS/ApiGateway" "Count" dims],
      latency := acc.latency ++
        [mf.createMetric "AWS/ApiGateway" "Latency" dims],
      error4xx := acc.error4xx ++
        [mf.createMetric "AWS/ApiGateway" "4XXError" dims],
      error5xx := acc.error5xx ++
        [mf.createMetric "AWS/ApiGateway" "5XXError" dims] }

/-- `ApiMethodMetricProvider.createWidgets`: three widgets; the third
concatenates the 4XX metrics with the 5XX metrics. -/
def createWidgets (mf : MetricFactory) (methods : List MethodRes) :
    List GraphWidget :=
  if methods.length = 0 then []
  else
    let acc := methods.foldl (visitOne mf) {}
    [ mf.createGraphWidget "API Gateway Method - Request Count"
        acc.requestCount (some 8),
      mf.createGraphWidget "API Gateway Method - Latency (ms)"
        acc.latency (some 8),
      mf.createGraphWidget "API Gateway Method - Error Rate"
        (acc.error4xx ++ acc.error5xx) (some 8) ]

end ApiMethodMetricProvider

/-- A construct-tree node as observed by the two aspects.  The `inst*`
flags embed the TypeScript `instanceof` tests; the identity fields are the
possibly-undefined properties probed by the type guards; the `metric*`
fields carry the resource-owned metric methods used by the providers;
`defaultChildCtorName` and `ctorName` feed the constructor-name fallback of
`DashboardAspect.tryGetResource`. -/
structure Node where
  instConstruct : Bool := true
  instNodejsFunction : Bool := false
  instLambdaFunction : Bool := false
  instQueue : Bool := false
  instTable : Bool := false
  instMethod : Bool := false
  instTopic : Bool := false
  instRestApi : Bool := false
  functionArn : Option String := none
  functionName : Option String := none
  queueArn : Option String := none
  queueName : Option String := none
  queueUrl : Option String := none
  tableArn : Option String := none
  tableName : Option String := none
  topicName : Option String := none
  topicArn : Option String := none
  restApiId : Option String := none
  restApiName : Option String := none
  httpMethod : Option String := none
  resourcePath : Option String := none
  metricInvocations : Option (Except Unit IMetric) := none
  metricDuration : Option (Except Unit IMetric) := none
  metricErrors : Option (Except Unit IMetric) := none
  metricThrottles : Option (Except Unit IMetric) := none
  metricConsumedReadCapacityUnits : Option (Except Unit IMetric) := none
  metricConsumedWriteCapacityUnits : Option (Except Unit IMetric) := none
  defaultChildCtorName : Option String := none
  ctorName : String := ""
  deriving Repr, DecidableEq

/-- Type guard `isLambdaFunction` of `src/index.ts`. -/
def isLambdaFunction (n : Node) : Bool :=
  n.instNodejsFunction || n.instLambdaFunction ||
    (n.functionArn.isSome && n.functionName.isSome)

/-- Type guard `isQueue` of `src/index.ts`. -/
def isQueue (n : Node) : Bool :=
  n.instQueue || (n.queueArn.isSome && n.queueName.isSome)

/-- Type guard `isDynamoDBTable` of `src/index.ts`. -/
def isDynamoDBTable (n : Node) : Bool :=
  n.instTable || (n.tableArn.isSome && n.tableName.isSome)

/-- Type guard `isApiMethod` of `src/index.ts`. -/
def isApiMethod (n : Node) : Bool :=
  n.instMethod

/-- Type guard `isSnsTopic` of `src/index.ts`. -/
def isSnsTopic (n : Node) : Bool :=
  n.instTopic || (n.topicName.isSome && n.topicArn.isSome)

/-- Type guard `isApiGateway` of `src/index.ts`. -/
def isApiGateway (n : Node) : Bool :=
  n.instRestApi || (n.restApiId.isSome && n.restApiName.isSome)

/-- View of a collected node as the Lambda provider sees it: the node is
stored in the bucket as-is, so property reads on it do not throw. -/
def Node.asLambda (n : Node) : LambdaRes :=
  { functionName := .ok n.functionName,
    metricInvocations := n.metricInvocations,
    metricDuration := n.metricDuration,
    metricErrors := n.metricErrors,
    metricThrottles := n.metricThrottles }

/-- View of a collected node as the DynamoDB provider sees it. -/
def Node.asTable (n : Node) : TableRes :=
  { tableName := .ok n.tableName,
    metricConsumedReadCapacityUnits := n.metricConsumedReadCapacityUnits,
    metricConsumedWriteCapacityUnits := n.metricConsumedWriteCapacityUnits }

/-- View of a collected node as the SNS provider sees it. -/
def Node.asTopic (n : Node) : TopicRes :=
  { topicName := .ok n.topicName }

/-- View of a collected node as the SQS provider sees it. -/
def Node.asQueue (n : Node) : QueueRes :=
  { queueName := .ok n.queueName }

/-- View of a collected node as the REST API provider sees it. -/
def Node.asRestApi (n : Node) : RestApiRes :=
  { restApiName := .ok n.restApiName }

/-- View of a collected node as the method provider sees it. -/
def Node.asMethod (n : Node) : MethodRes :=
  { resourcePath := .ok n.resourcePath, httpMethod := n.httpMethod }

/-- The kind bucket a visited node is pushed to by `CdkDashboard.visit`. -/
inductive Bucket where
  | table
  | lambdaFunction
  | queue
  | apiMethod
  | snsTopic
  | apiGateway
  deriving Repr, DecidableEq

/-- The if/else-if chain of `CdkDashboard.visit` (`src/index.ts`): the six
type guards are tried in order Table, Function, Queue, HttpMethod, Topic,
HttpApi, and the first match decides the bucket. -/
def classify (n : Node) : Option Bucket :=
  if isDynamoDBTable n then some .table
  else if isLambdaFunction n then some .lambdaFunction
  else if isQueue n then some .queue
  else if isApiMethod n then some .apiMethod
  else if isSnsTopic n then some .snsTopic
  else if isApiGateway n then some .apiGateway
  else none

/-- The mutable state of a `CdkDashboard` instance: the six kind buckets,
the custom widget list, and the rows currently published to the dashboard
sink. -/
structure CdkState where
  dydbTables : List Node := []
  lambdas : List Node := []
  widgets : List GraphWidget := []
  queues : List Node := []
  apiMethods : List Node := []
  apiGateways : List Node := []
  snsTopics : List Node := []
  rows : List GraphWidget := []
  deriving Repr, DecidableEq

/-- The metric factory of `CdkDashboard`: constructed with
`Duration.hours(3)`. -/
def cdkFactory : MetricFactory := { periodHours := 3 }

/-- The widget list rebuilt on each matched visit (`src/index.ts` lines
125-133): custom widgets first, then DynamoDB, Lambda, SQS, API Gateway,
API method and SNS widgets, in that order. -/
def assembleWidgets (s : CdkState) : List GraphWidget :=
  s.widgets
    ++ DynamoDBMetricProvider.createWidgets cdkFactory
        (s.dydbTables.map Node.asTable)
    ++ LambdaMetricProvider.createWidgets cdkFactory
        (s.lambdas.map Node.asLambda)
    ++ SQSMetricProvider.createWidgets cdkFactory
        (s.queues.map Node.asQueue)
    ++ ApiGatewayMetricProvider.createWidgets cdkFactory
        (s.apiGateways.map Node.asRestApi)
    ++ ApiMethodMetricProvider.createWidgets cdkFactory
        (s.apiMethods.map Node.asMethod)
    ++ SNSMetricProvider.createWidgets cdkFactory
        (s.snsTopics.map Node.asTopic)

/-- Appends a node to the bucket selected by `classify`. -/
def pushNode (s : CdkState) (n : Node) : CdkState :=
  match classify n with
  | some .table => { s with dydbTables := s.dydbTables ++ [n] }
  | some .lambdaFunction => { s with lambdas := s.lambdas ++ [n] }
  | some .queue => { s with queues := s.queues ++ [n] }
  | some .apiMethod => { s with apiMethods := s.apiMethods ++ [n] }
  | some .snsTopic => { s with snsTopics := s.snsTopics ++ [n] }
  | some .apiGateway => { s with apiGateways := s.apiGateways ++ [n] }
  | none => s

/-- `CdkDashboard.visit`: an unmatched node returns with no state change;
a matched node is bucketed and the dashboard rows are reset and rebuilt
from all collected resources. -/
def CdkState.visit (s : CdkState) (n : Node) : CdkState :=
  match classify n with
  | none => s
  | some _ =>
    let s1 := pushNode s n
    { s1 with rows := assembleWidgets s1 }

/-- `CdkDashboard.addWidgets`: appends custom widgets; the published rows
are not touched. -/
def CdkState.addWidgets (s : CdkState) (ws : List GraphWidget) : CdkState :=
  { s with widgets := s.widgets ++ ws }

/-- The external interactions a `CdkDashboard` instance can receive. -/
inductive DashEvent where
  | visit (n : Node)
  | addWidgets (ws : List GraphWidget)
  deriving Repr

/-- One interaction step. -/
def stepEvent (s : CdkState) (e : DashEvent) : CdkState :=
  match e with
  | .visit n => s.visit n
  | .addWidgets ws => s.addWidgets ws

/-- A fresh `CdkDashboard` instance. -/
def initState : CdkState := {}

/-- A traversal: the aspect receives one visit per node, in order. -/
def runVisits (s : CdkState) (ns : List Node) : CdkState :=
  ns.foldl CdkState.visit s

/-- An interaction history: visits interleaved with custom registration. -/
def runEvents (s : CdkState) (es : List DashEvent) : CdkState :=
  es.foldl stepEvent s

/-- `DashboardOptions` (`src/dashboard/dashboard-options.ts`): every field
is optional; the aspect tests each inclusion flag with `!== false`, so an
absent flag counts as enabled. -/
structure DashboardOptions where
  periodHours : Option Nat := none
  includeLambda : Option Bool := none
  includeApiGateway : Option Bool := none
  includeDynamoDB : Option Bool := none
  includeSNS : Option Bool := none
  includeSQS : Option Bool := none
  deriving Repr, DecidableEq

/-- Whether the first character list starts the second one. -/
def leadsWith : List Char → List Char → Bool
  | [], _ => true
  | _ :: _, [] => false
  | p :: ps, c :: cs => p == c && leadsWith ps cs

/-- Whether the second character list occurs inside the first. -/
def containsSub (pat : List Char) : List Char → Bool
  | [] => leadsWith pat []
  | c :: cs => leadsWith pat (c :: cs) || containsSub pat cs

/-- JavaScript `String.prototype.includes`. -/
def strIncludes (s pat : String) : Bool :=
  containsSub pat.toList s.toList

/-- The constructor-name fallback at the end of
`DashboardAspect.tryGetResource`: the default child constructor name or
the construct constructor name contains the CloudFormation type name. -/
def fallbackMatch (n : Node) (cfnTypeName : String) : Bool :=
  (match n.defaultChildCtorName with
   | some c => strIncludes c cfnTypeName
   | none => false)
  || strIncludes n.ctorName cfnTypeName

/-- `tryGetResource(construct, "lambda.Function")` succeeds. -/
def tryGetLambda (n : Node) : Bool :=
  n.functionName.isSome || fallbackMatch n "lambda.Function"

/-- `tryGetResource(construct, "apigateway.RestApi")` succeeds: the probe
is `restApiId || restApiName` with JavaScript truthiness. -/
def tryGetRestApi (n : Node) : Bool :=
  (jsOrOpt n.restApiId n.restApiName).isSome ||
    fallbackMatch n "apigateway.RestApi"

/-- `tryGetResource(construct, "dynamodb.Table")` succeeds. -/
def tryGetTable (n : Node) : Bool :=
  (jsOrOpt n.tableName n.tableArn).isSome || fallbackMatch n "dynamodb.Table"

/-- `tryGetResource(construct, "sns.Topic")` succeeds. -/
def tryGetTopic (n : Node) : Bool :=
  (jsOrOpt n.topicName n.topicArn).isSome || fallbackMatch n "sns.Topic"

/-- `tryGetResource(construct, "sqs.Queue")` succeeds. -/
def tryGetQueue (n : Node) : Bool :=
  (jsOrOpt n.queueName n.queueUrl).isSome || fallbackMatch n "sqs.Queue"

/-- The mutable state of a `DashboardAspect` instance: five kind buckets,
the one-shot generation flag, and the widgets added to the dashboard. -/
structure AspectState where
  lambdaFunctions : List Node := []
  restApis : List Node := []
  dynamoTables : List Node := []
  snsTopics : List Node := []
  sqsQueues : List Node := []
  dashboardGenerated : Bool := false
  dashboard : List GraphWidget := []
  deriving Repr, DecidableEq

/-- The metric factory of a `DashboardAspect`:
`new MetricFactory(options.periodHours || 3)`. -/
def aspectFactory (opts : DashboardOptions) : MetricFactory :=
  { periodHours := jsOrNat opts.periodHours 3 }

/-- `DashboardAspect.visit`: a non-construct node is skipped; otherwise
each of the five kinds is probed independently (no else-if), guarded by
its inclusion flag, and a successful probe appends the node to that kind
bucket. -/
def AspectState.visit (opts : DashboardOptions) (s : AspectState)
    (n : Node) : AspectState :=
  if n.instConstruct = false then s
  else
    let s := if opts.includeLambda ≠ some false ∧ tryGetLambda n = true then
      { s with lambdaFunctions := s.lambdaFunctions ++ [n] } else s
    let s := if opts.includeApiGateway ≠ some false ∧ tryGetRestApi n = true then
      { s with restApis := s.restApis ++ [n] } else s
    let s := if opts.includeDynamoDB ≠ some false ∧ tryGetTable n = true then
      { s with dynamoTables := s.dynamoTables ++ [n] } else s
    let s := if opts.includeSNS ≠ some false ∧ tryGetTopic n = true then
      { s with snsTopics := s.snsTopics ++ [n] } else s
    let s := if opts.includeSQS ≠ some false ∧ tryGetQueue n = true then
      { s with sqsQueues := s.sqsQueues ++ [n] } else s
    s

/-- `DashboardAspect.generateDashboard`, instrumented: the first component
is the state update of the source (guarded by `dashboardGenerated`; one
non-empty kind at a time appends its widgets to the dashboard, in order
Lambda, API Gateway, DynamoDB, SNS, SQS); the second component is ghost
output recording which provider createWidgets calls were made. -/
def AspectState.generateDashboard (opts : DashboardOptions)
    (s : AspectState) : AspectState × List String :=
  if s.dashboardGenerated then (s, [])
  else
    let mf := aspectFactory opts
    let dash := s.dashboard
    let invoked : List String := []
    let (dash, invoked) := if s.lambdaFunctions.length > 0 then
      (dash ++ LambdaMetricProvider.createWidgets mf
        (s.lambdaFunctions.map Node.asLambda), invoked ++ ["lambda"])
      else (dash, invoked)
    let (dash, invoked) := if s.restApis.length > 0 then
      (dash ++ ApiGatewayMetricProvider.createWidgets mf
        (s.restApis.map Node.asRestApi), invoked ++ ["apiGateway"])
      else (dash, invoked)
    let (dash, invoked) := if s.dynamoTables.length > 0 then
      (dash ++ DynamoDBMetricProvider.createWidgets mf
        (s.dynamoTables.map Node.asTable), invoked ++ ["dynamoDB"])
      else (dash, invoked)
    let (dash, invoked) := if s.snsTopics.length > 0 then
      (dash ++ SNSMetricProvider.createWidgets mf
        (s.snsTopics.map Node.asTopic), invoked ++ ["sns"])
      else (dash, invoked)
    let (dash, invoked) := if s.sqsQueues.length > 0 then
      (dash ++ SQSMetricProvider.createWidgets mf
        (s.sqsQueues.map Node.asQueue), invoked ++ ["sqs"])
      else (dash, invoked)
    ({ s with dashboard := dash, dashboardGenerated := true }, invoked)

/-- A fresh `DashboardAspect` instance. -/
def initAspect : AspectState := {}

/-- A traversal observed by a `DashboardAspect`. -/
def runAspectVisits (opts : DashboardOptions) (s : AspectState)
    (ns : List Node) : AspectState :=
  ns.foldl (AspectState.visit opts) s

/-- The value of an `Except Unit` computation, `none` when it threw. -/
def exOpt {α : Type} : Except Unit α → Option α
  | .ok a => some a
  | .error _ => none

/-- Whether an `Except Unit` computation succeeded. -/
def isOkE {α : Type} (e : Except Unit α) : Bool :=
  (exOpt e).isSome

namespace LambdaMetricProvider

/-- What one function contributes to the invocation accumulator. -/
def contribInv (mf : MetricFactory) (f : LambdaRes) : Option IMetric :=
  exOpt (invMetric mf f)

/-- What one function contributes to the duration accumulator (pushed only
when the invocation step before it did not throw). -/
def contribDur (mf : MetricFactory) (f : LambdaRes) : Option IMetric :=
  match invMetric mf f with
  | .error _ => none
  | .ok _ => exOpt (durMetric mf f)

/-- What one function contributes to the error accumulator. -/
def contribErr (mf : MetricFactory) (f : LambdaRes) : Option IMetric :=
  match invMetric mf f, durMetric mf f with
  | .ok _, .ok _ => exOpt (errMetric mf f)
  | _, _ => none

/-- What one function contributes to the throttle accumulator. -/
def contribThr (mf : MetricFactory) (f : LambdaRes) : Option IMetric :=
  match invMetric mf f, durMetric mf f, errMetric mf f with
  | .ok _, .ok _, .ok _ => exOpt (thrMetric mf f)
  | _, _, _ => none

/-- A function whose four metric extractions all succeed. -/
def okRes (mf : MetricFactory) (f : LambdaRes) : Bool :=
  isOkE (invMetric mf f) && isOkE (durMetric mf f) &&
    isOkE (errMetric mf f) && isOkE (thrMetric mf f)

/-- A function whose identity read throws and that offers none of the four
metric methods, so every extraction fails at the identity read. -/
def idFaulty (f : LambdaRes) : Bool :=
  !isOkE f.functionName && f.metricInvocations.isNone &&
    f.metricDuration.isNone && f.metricErrors.isNone &&
    f.metricThrottles.isNone

/-- The widget titles this provider can emit. -/
def titles : List String :=
  ["Lambda - Invocations", "Lambda - Duration (ms)", "Lambda - Errors",
   "Lambda - Throttles"]

end LambdaMetricProvider

namespace DynamoDBMetricProvider

/-- The dimension map built from a table name read. -/
def dimsOf (nOpt : Option String) : List (String × Option String) :=
  [("TableName", some (jsOrD nOpt "unknown-table"))]

/-- What one table contributes to the read-capacity accumulator. -/
def contribReadCap (mf : MetricFactory) (t : TableRes) : Option IMetric :=
  match t.tableName with
  | .error _ => none
  | .ok n => exOpt (readCapMetric mf (dimsOf n) t)

/-- What one table contributes to the write-capacity accumulator. -/
def contribWriteCap (mf : MetricFactory) (t : TableRes) : Option IMetric :=
  match t.tableName with
  | .error _ => none
  | .ok n =>
    match readCapMetric mf (dimsOf n) t with
    | .error _ => none
    | .ok _ => exOpt (writeCapMetric mf (dimsOf n) t)

/-- What one table contributes to the read-throttle accumulator (pushed
with the write-capacity metric, in the same record update). -/
def contribReadThr (mf : MetricFactory) (t : TableRes) : Option IMetric :=
  match t.tableName with
  | .error _ => none
  | .ok n =>
    match readCapMetric mf (dimsOf n) t, writeCapMetric mf (dimsOf n) t with
    | .ok _, .ok _ =>
        some (mf.createMetric "AWS/DynamoDB" "ReadThrottleEvents" (dimsOf n))
    | _, _ => none

/-- What one table contributes to the write-throttle accumulator. -/
def contribWriteThr (mf : MetricFactory) (t : TableRes) : Option IMetric :=
  match t.tableName with
  | .error _ => none
  | .ok n =>
    match readCapMetric mf (dimsOf n) t, writeCapMetric mf (dimsOf n) t with
    | .ok _, .ok _ =>
        some (mf.createMetric "AWS/DynamoDB" "WriteThrottleEvents" (dimsOf n))
    | _, _ => none

/-- What one table contributes to the query-latency accumulator. -/
def contribQuery (mf : MetricFactory) (t : TableRes) : Option IMetric :=
  match t.tableName with
  | .error _ => none
  | .ok n =>
    match readCapMetric mf (dimsOf n) t, writeCapMetric mf (dimsOf n) t with
    | .ok _, .ok _ =>
        some (mf.createMetric "AWS/DynamoDB" "SuccessfulRequestLatency"
          (dimsOf n ++ [("Operation", some "Query")]))
    | _, _ => none

/-- What one table contributes to the scan-latency accumulator. -/
def contribScan (mf : MetricFactory) (t : TableRes) : Option IMetric :=
  match t.tableName with
  | .error _ => none
  | .ok n =>
    match readCapMetric mf (dimsOf n) t, writeCapMetric mf (dimsOf n) t with
    | .ok _, .ok _ =>
        some (mf.createMetric "AWS/DynamoDB" "SuccessfulRequestLatency"
          (dimsOf n ++ [("Operation", some "Scan")]))
    | _, _ => none

/-- A table whose name read and both capacity extractions succeed. -/
def okRes (mf : MetricFactory) (t : TableRes) : Bool :=
  match t.tableName with
  | .error _ => false
  | .ok n =>
    isOkE (readCapMetric mf (dimsOf n) t) &&
      isOkE (writeCapMetric mf (dimsOf n) t)

/-- A table whose name read throws, so the whole table is skipped. -/
def idFaulty (t : TableRes) : Bool :=
  !isOkE t.tableName

/-- The widget titles this provider can emit. -/
def titles : List String :=
  ["DynamoDB - Capacity Units", "DynamoDB - Throttle Events",
   "DynamoDB - Query Latency", "DynamoDB - Scan Latency"]

end DynamoDBMetricProvider

namespace SNSMetricProvider

/-- What one topic contributes to each accumulator: nothing when the name
read throws, one metric otherwise. -/
def contribOf (mf : MetricFactory) (metricName : String) (t : TopicRes) :
    Option IMetric :=
  match t.topicName with
  | .error _ => none
  | .ok n =>
      some (mf.createMetric "AWS/SNS" metricName
        [("TopicName", some (jsOrD n "unknown-topic"))])

/-- A topic whose name read succeeds. -/
def okRes (t : TopicRes) : Bool :=
  isOkE t.topicName

/-- The widget titles this provider can emit. -/
def titles : List String :=
  ["SNS - Published Messages", "SNS - Notifications Delivered",
   "SNS - Notifications Failed"]

end SNSMetricProvider

namespace SQSMetricProvider

/-- What one queue contributes to each accumulator. -/
def contribOf (mf : MetricFactory) (metricName : String) (q : QueueRes) :
    Option IMetric :=
  match q.queueName with
  | .error _ => none
  | .ok n =>
      some (mf.createMetric "AWS/SQS" metricName
        [("QueueName", some (jsOrD n "unknown-queue"))])

/-- A queue whose name read succeeds. -/
def okRes (q : QueueRes) : Bool :=
  isOkE q.queueName

/-- The widget titles this provider can emit. -/
def titles : List String :=
  ["SQS - Messages Sent", "SQS - Messages Received",
   "SQS - Visible Messages", "SQS - Age of Oldest Message (seconds)"]

end SQSMetricProvider

namespace ApiGatewayMetricProvider

/-- What one REST API contributes to each accumulator. -/
def contribOf (mf : MetricFactory) (metricName : String) (a : RestApiRes) :
    Option IMetric :=
  match a.restApiName with
  | .error _ => none
  | .ok n =>
      some (mf.createMetric "AWS/ApiGateway" metricName
        [("ApiName", some (jsOrD n "unknown-api"))])

/-- A REST API whose name read succeeds. -/
def okRes (a : RestApiRes) : Bool :=
  isOkE a.restApiName

/-- The widget titles this provider can emit. -/
def titles : List String :=
  ["API Gateway - Request Count", "API Gateway - Latency (ms)",
   "API Gateway - 4XX Errors", "API Gateway - 5XX Errors"]

end ApiGatewayMetricProvider

/-- The resource path a collected method exposes (undefined when absent or
when the read would throw). -/
def MethodRes.pathVal (m : MethodRes) : Option String :=
  (exOpt m.resourcePath).getD none

namespace ApiMethodMetricProvider

/-- What one method contributes to each accumulator. -/
def contribOf (mf : MetricFactory) (metricName : String) (m : MethodRes) :
    Option IMetric :=
  match m.resourcePath with
  | .error _ => none
  | .ok p =>
      some (mf.createMetric "AWS/ApiGateway" metricName
        (methodDims p m.httpMethod))

/-- A method whose resource-path read succeeds. -/
def okRes (m : MethodRes) : Bool :=
  isOkE m.resourcePath

/-- The widget titles this provider can emit. -/
def titles : List String :=
  ["API Gateway Method - Request Count", "API Gateway Method - Latency (ms)",
   "API Gateway Method - Error Rate"]

end ApiMethodMetricProvider

/-- Total number of bucketed resources in a `CdkDashboard` state. -/
def bucketsLen (s : CdkState) : Nat :=
  s.dydbTables.length + s.lambdas.length + s.queues.length +
    s.apiMethods.length + s.snsTopics.length + s.apiGateways.length

/-- The auto-discovered part of the rebuilt widget list: everything
`assembleWidgets` emits after the custom widgets. -/
def autoWidgets (s : CdkState) : List GraphWidget :=
  DynamoDBMetricProvider.createWidgets cdkFactory (s.dydbTables.map Node.asTable)
    ++ LambdaMetricProvider.createWidgets cdkFactory (s.lambdas.map Node.asLambda)
    ++ SQSMetricProvider.createWidgets cdkFactory (s.queues.map Node.asQueue)
    ++ ApiGatewayMetricProvider.createWidgets cdkFactory
        (s.apiGateways.map Node.asRestApi)
    ++ ApiMethodMetricProvider.createWidgets cdkFactory
        (s.apiMethods.map Node.asMethod)
    ++ SNSMetricProvider.createWidgets cdkFactory (s.snsTopics.map Node.asTopic)

/-- A table node named `items`, as in the end-to-end spec scenario. -/
def itemsTableNode : Node :=
  { instTable := true, tableName := some "items" }

/-- A function node named `proc-1`, as in the end-to-end spec scenario. -/
def procFnNode : Node :=
  { instLambdaFunction := true, functionName := some "proc-1" }

/-- A node matching both the table guard and the function guard. -/
def dualNode : Node :=
  { instTable := true, instLambdaFunction := true }

/-- A node matching no guard at all. -/
def inertNode : Node := {}

/-- A custom widget registered by the caller. -/
def customW : GraphWidget :=
  { title := "Custom", metrics := [], width := 24, height := 6,
    liveData := true, periodHours := 3 }

/-- An SNS topic node as the `DashboardAspect` probes see it. -/
def aspectTopicNode : Node :=
  { topicName := some "events" }

/-- A Lambda node as the `DashboardAspect` probes see it. -/
def aspectLambdaNode : Node :=
  { functionName := some "proc-1" }

/-- A REST API node as the `DashboardAspect` probes see it. -/
def aspectApiNode : Node :=
  { restApiId := some "api123" }

/-- A table node as the `DashboardAspect` probes see it. -/
def aspectTableNode : Node :=
  { tableName := some "items" }

/-- A queue node as the `DashboardAspect` probes see it. -/
def aspectQueueNode : Node :=
  { queueName := some "jobs" }

/-- A table resource whose reads all succeed. -/
def validTable : TableRes := { tableName := .ok (some "items") }

/-- A table resource whose name read throws. -/
def faultyTable : TableRes := { tableName := .error () }

/-- A function resource whose reads all succeed. -/
def validFn : LambdaRes := { functionName := .ok (some "proc-1") }

/-- A function resource whose name read throws and that has no metric
methods. -/
def faultyFn : LambdaRes := { functionName := .error () }

/-- A topic resource whose name read succeeds. -/
def validTopic : TopicRes := { topicName := .ok (some "events") }

/-- A topic resource whose name read throws. -/
def faultyTopic : TopicRes := { topicName := .error () }

/-- A queue resource whose name read succeeds. -/
def validQueue : QueueRes := { queueName := .ok (some "jobs") }

/-- A queue resource whose name read throws. -/
def faultyQueue : QueueRes := { queueName := .error () }

/-- A REST API resource whose name read succeeds. -/
def validApi : RestApiRes := { restApiName := .ok (some "orders-api") }

/-- A REST API resource whose name read throws. -/
def faultyApi : RestApiRes := { restApiName := .error () }

/-- A method with a defined path and verb. -/
def methodGet : MethodRes :=
  { resourcePath := .ok (some "/items"), httpMethod := some "GET" }

/-- A method with no path and no verb (both fall back). -/
def methodBare : MethodRes :=
  { resourcePath := .ok none, httpMethod := none }

/-- A method whose resource-path read throws. -/
def faultyMethod : MethodRes := { resourcePath := .error () }

/-! ## Generic helper lemmas -/

theorem mem_of_mem_ite_nil {α : Type} {c : Prop} [Decidable c]
    {l : List α} {a : α} (h : a ∈ (if c then l else [])) : a ∈ l := by
  by_cases hc : c
  · simpa [hc] using h
  · simp [hc] at h

theorem filterMap_cons_toList {α β : Type} (f : α → Option β) (a : α)
    (l : List α) :
    (a :: l).filterMap f = (f a).toList ++ l.filterMap f := by
  cases h : f a <;> simp [h]

theorem length_filterMap_eq_filter {α β : Type} (f : α → Option β)
    (p : α → Bool) :
    ∀ l : List α, (∀ a ∈ l, (f a).isSome = p a) →
      (l.filterMap f).length = (l.filter p).length := by
  intro l
  induction l with
  | nil => intro _; rfl
  | cons a l ih =>
    intro h
    have ha := h a (by simp)
    have hl : ∀ x ∈ l, (f x).isSome = p x := fun x hx => h x (by simp [hx])
    cases hfa : f a with
    | none =>
      have hp : p a = false := by rw [← ha, hfa]; rfl
      simp [List.filterMap_cons, List.filter_cons, hfa, hp, ih hl]
    | some b =>
      have hp : p a = true := by rw [← ha, hfa]; rfl
      simp [List.filterMap_cons, List.filter_cons, hfa, hp, ih hl]

theorem filterMap_eq_map_of_all_some {α β : Type} (f : α → Option β)
    (g : α → β) :
    ∀ l : List α, (∀ a ∈ l, f a = some (g a)) →
      l.filterMap f = l.map g := by
  intro l
  induction l with
  | nil => intro _; rfl
  | cons a l ih =>
    intro h
    have ha := h a (by simp)
    have hl : ∀ x ∈ l, f x = some (g x) := fun x hx => h x (by simp [hx])
    simp [List.filterMap_cons, ha, ih hl]

/-! ## Provider accumulator characterizations -/

theorem lambda_visitOne_char (mf : MetricFactory)
    (acc : LambdaMetricProvider.Acc) (f : LambdaRes) :
    LambdaMetricProvider.visitOne mf acc f =
      { inv := acc.inv ++ (LambdaMetricProvider.contribInv mf f).toList,
        dur := acc.dur ++ (LambdaMetricProvider.contribDur mf f).toList,
        err := acc.err ++ (LambdaMetricProvider.contribErr mf f).toList,
        thr := acc.thr ++ (LambdaMetricProvider.contribThr mf f).toList } := by
  unfold LambdaMetricProvider.visitOne LambdaMetricProvider.contribInv
    LambdaMetricProvider.contribDur LambdaMetricProvider.contribErr
    LambdaMetricProvider.contribThr
  cases h1 : LambdaMetricProvider.invMetric mf f with
  | error e => simp [exOpt]
  | ok m1 =>
    cases h2 : LambdaMetricProvider.durMetric mf f with
    | error e => simp [exOpt]
    | ok m2 =>
      cases h3 : LambdaMetricProvider.errMetric mf f with
      | error e => simp [exOpt]
      | ok m3 =>
        cases h4 : LambdaMetricProvider.thrMetric mf f with
        | error e => simp [exOpt]
        | ok m4 => simp [exOpt]

theorem lambda_foldl_char (mf : MetricFactory) (fs : List LambdaRes)
    (acc : LambdaMetricProvider.Acc) :
    fs.foldl (LambdaMetricProvider.visitOne mf) acc =
      { inv := acc.inv ++ fs.filterMap (LambdaMetricProvider.contribInv mf),
        dur := acc.dur ++ fs.filterMap (LambdaMetricProvider.contribDur mf),
        err := acc.err ++ fs.filterMap (LambdaMetricProvider.contribErr mf),
        thr := acc.thr ++ fs.filterMap (LambdaMetricProvider.contribThr mf) } := by
  induction fs generalizing acc with
  | nil => simp
  | cons f fs ih =>
    rw [List.foldl_cons, lambda_visitOne_char, ih]
    simp [filterMap_cons_toList, List.append_assoc]

theorem dynamo_visitOne_char (mf : MetricFactory)
    (acc : DynamoDBMetricProvider.Acc) (t : TableRes) :
    DynamoDBMetricProvider.visitOne mf acc t =
      { readCap := acc.readCap ++ (DynamoDBMetricProvider.contribReadCap mf t).toList,
        writeCap := acc.writeCap ++ (DynamoDBMetricProvider.contribWriteCap mf t).toList,
        readThr := acc.readThr ++ (DynamoDBMetricProvider.contribReadThr mf t).toList,
        writeThr := acc.writeThr ++ (DynamoDBMetricProvider.contribWriteThr mf t).toList,
        query := acc.query ++ (DynamoDBMetricProvider.contribQuery mf t).toList,
        scan := acc.scan ++ (DynamoDBMetricProvider.contribScan mf t).toList } := by
  unfold DynamoDBMetricProvider.visitOne DynamoDBMetricProvider.contribReadCap
    DynamoDBMetricProvider.contribWriteCap DynamoDBMetricProvider.contribReadThr
    DynamoDBMetricProvider.contribWriteThr DynamoDBMetricProvider.contribQuery
    DynamoDBMetricProvider.contribScan DynamoDBMetricProvider.dimsOf
  cases h0 : t.tableName with
  | error e => simp [exOpt]
  | ok n =>
    cases h1 : DynamoDBMetricProvider.readCapMetric mf
        [("TableName", some (jsOrD n "unknown-table"))] t with
    | error e => simp [exOpt, h1]
    | ok mr =>
      cases h2 : DynamoDBMetricProvider.writeCapMetric mf
          [("TableName", some (jsOrD n "unknown-table"))] t with
      | error e => simp [exOpt, h1, h2]
      | ok mw => simp [exOpt, h1, h2]

theorem dynamo_foldl_char (mf : MetricFactory) (ts : List TableRes)
    (acc : DynamoDBMetricProvider.Acc) :
    ts.foldl (DynamoDBMetricProvider.visitOne mf) acc =
      { readCap := acc.readCap ++ ts.filterMap (DynamoDBMetricProvider.contribReadCap mf),
        writeCap := acc.writeCap ++ ts.filterMap (DynamoDBMetricProvider.contribWriteCap mf),
        readThr := acc.readThr ++ ts.filterMap (DynamoDBMetricProvider.contribReadThr mf),
        writeThr := acc.writeThr ++ ts.filterMap (DynamoDBMetricProvider.contribWriteThr mf),
        query := acc.query ++ ts.filterMap (DynamoDBMetricProvider.contribQuery mf),
        scan := acc.scan ++ ts.filterMap (DynamoDBMetricProvider.contribScan mf) } := by
  induction ts generalizing acc with
  | nil => simp
  | cons t ts ih =>
    rw [List.foldl_cons, dynamo_visitOne_char, ih]
    simp [filterMap_cons_toList, List.append_assoc]

theorem sns_visitOne_char (mf : MetricFactory)
    (acc : SNSMetricProvider.Acc) (t : TopicRes) :
    SNSMetricProvider.visitOne mf acc t =
      { publish := acc.publish ++
          (SNSMetricProvider.contribOf mf "NumberOfMessagesPublished" t).toList,
        delivery := acc.delivery ++
          (SNSMetricProvider.contribOf mf "NumberOfNotificationsDelivered" t).toList,
        failure := acc.failure ++
          (SNSMetricProvider.contribOf mf "NumberOfNotificationsFailed" t).toList } := by
  unfold SNSMetricProvider.visitOne SNSMetricProvider.contribOf
  cases h0 : t.topicName with
  | error e => simp
  | ok n => simp

theorem sns_foldl_char (mf : MetricFactory) (ts : List TopicRes)
    (acc : SNSMetricProvider.Acc) :
    ts.foldl (SNSMetricProvider.visitOne mf) acc =
      { publish := acc.publish ++
          ts.filterMap (SNSMetricProvider.contribOf mf "NumberOfMessagesPublished"),
        delivery := acc.delivery ++
          ts.filterMap (SNSMetricProvider.contribOf mf "NumberOfNotificationsDelivered"),
        failure := acc.failure ++
          ts.filterMap (SNSMetricProvider.contribOf mf "NumberOfNotificationsFailed") } := by
  induction ts generalizing acc with
  | nil => simp
  | cons t ts ih =>
    rw [List.foldl_cons, sns_visitOne_char, ih]
    simp [filterMap_cons_toList, List.append_assoc]

theorem sqs_visitOne_char (mf : MetricFactory)
    (acc : SQSMetricProvider.Acc) (q : QueueRes) :
    SQSMetricProvider.visitOne mf acc q =
      { sent := acc.sent ++
          (SQSMetricProvider.contribOf mf "NumberOfMessagesSent" q).toList,
        received := acc.received ++
          (SQSMetricProvider.contribOf mf "NumberOfMessagesReceived" q).toList,
        visible := acc.visible ++
          (SQSMetricProvider.contribOf mf "ApproximateNumberOfMessagesVisible" q).toList,
        oldestAge := acc.oldestAge ++
          (SQSMetricProvider.contribOf mf "ApproximateAgeOfOldestMessage" q).toList } := by
  unfold SQSMetricProvider.visitOne SQSMetricProvider.contribOf
  cases h0 : q.queueName with
  | error e => simp
  | ok n => simp

theorem sqs_foldl_char (mf : MetricFactory) (qs : List QueueRes)
    (acc : SQSMetricProvider.Acc) :
    qs.foldl (SQSMetricProvider.visitOne mf) acc =
      { sent := acc.sent ++
          qs.filterMap (SQSMetricProvider.contribOf mf "NumberOfMessagesSent"),
        received := acc.received ++
          qs.filterMap (SQSMetricProvider.contribOf mf "NumberOfMessagesReceived"),
        visible := acc.visible ++
          qs.filterMap (SQSMetricProvider.contribOf mf "ApproximateNumberOfMessagesVisible"),
        oldestAge := acc.oldestAge ++
          qs.filterMap (SQSMetricProvider.contribOf mf "ApproximateAgeOfOldestMessage") } := by
  induction qs generalizing acc with
  | nil => simp
  | cons q qs ih =>
    rw [List.foldl_cons, sqs_visitOne_char, ih]
    simp [filterMap_cons_toList, List.append_assoc]

theorem apigw_visitOne_char (mf : MetricFactory)
    (acc : ApiGatewayMetricProvider.Acc) (a : RestApiRes) :
    ApiGatewayMetricProvider.visitOne mf acc a =
      { requestCount := acc.requestCount ++
          (ApiGatewayMetricProvider.contribOf mf "Count" a).toList,
        latency := acc.latency ++
          (ApiGatewayMetricProvider.contribOf mf "Latency" a).toList,
        error4xx := acc.error4xx ++
          (ApiGatewayMetricProvider.contribOf mf "4XXError" a).toList,
        error5xx := acc.error5xx ++
          (ApiGatewayMetricProvider.contribOf mf "5XXError" a).toList } := by
  unfold ApiGatewayMetricProvider.visitOne ApiGatewayMetricProvider.contribOf
  cases h0 : a.restApiName with
  | error e => simp
  | ok n => simp

theorem apigw_foldl_char (mf : MetricFactory) (as : List RestApiRes)
    (acc : ApiGatewayMetricProvider.Acc) :
    as.foldl (ApiGatewayMetricProvider.visitOne mf) acc =
      { requestCount := acc.requestCount ++
          as.filterMap (ApiGatewayMetricProvider.contribOf mf "Count"),
        latency := acc.latency ++
          as.filterMap (ApiGatewayMetricProvider.contribOf mf "Latency"),
        error4xx := acc.error4xx ++
          as.filterMap (ApiGatewayMetricProvider.contribOf mf "4XXError"),
        error5xx := acc.error5xx ++
          as.filterMap (ApiGatewayMetricProvider.contribOf mf "5XXError") } := by
  induction as generalizing acc with
  | nil => simp
  | cons a as ih =>
    rw [List.foldl_cons, apigw_visitOne_char, ih]
    simp [filterMap_cons_toList, List.append_assoc]

theorem method_visitOne_char (mf : MetricFactory)
    (acc : ApiMethodMetricProvider.Acc) (m : MethodRes) :
    ApiMethodMetricProvider.visitOne mf acc m =
      { requestCount := acc.requestCount ++
          (ApiMethodMetricProvider.contribOf mf "Count" m).toList,
        latency := acc.latency ++
          (ApiMethodMetricProvider.contribOf mf "Latency" m).toList,
        error4xx := acc.error4xx ++
          (ApiMethodMetricProvider.contribOf mf "4XXError" m).toList,
        error5xx := acc.error5xx ++
          (ApiMethodMetricProvider.contribOf mf "5XXError" m).toList } := by
  unfold ApiMethodMetricProvider.visitOne ApiMethodMetricProvider.contribOf
  cases h0 : m.resourcePath with
  | error e => simp
  | ok p => simp

theorem method_foldl_char (mf : MetricFactory) (ms : List MethodRes)
    (acc : ApiMethodMetricProvider.Acc) :
    ms.foldl (ApiMethodMetricProvider.visitOne mf) acc =
      { requestCount := acc.requestCount ++
          ms.filterMap (ApiMethodMetricProvider.contribOf mf "Count"),
        latency := acc.latency ++
          ms.filterMap (ApiMethodMetricProvider.contribOf mf "Latency"),
        error4xx := acc.error4xx ++
          ms.filterMap (ApiMethodMetricProvider.contribOf mf "4XXError"),
        error5xx := acc.error5xx ++
          ms.filterMap (ApiMethodMetricProvider.contribOf mf "5XXError") } := by
  induction ms generalizing acc with
  | nil => simp
  | cons m ms ih =>
    rw [List.foldl_cons, method_visitOne_char, ih]
    simp [filterMap_cons_toList, List.append_assoc]

/-! ## Provider createWidgets shapes -/

theorem lambda_createWidgets_eq (mf : MetricFactory) (fs : List LambdaRes)
    (h : fs ≠ []) :
    LambdaMetricProvider.createWidgets mf fs =
      [ mf.createGraphWidget "Lambda - Invocations"
          (fs.filterMap (LambdaMetricProvider.contribInv mf)) (some 6),
        mf.createGraphWidget "Lambda - Duration (ms)"
          (fs.filterMap (LambdaMetricProvider.contribDur mf)) (some 6),
        mf.createGraphWidget "Lambda - Errors"
          (fs.filterMap (LambdaMetricProvider.contribErr mf)) (some 6),
        mf.createGraphWidget "Lambda - Throttles"
          (fs.filterMap (LambdaMetricProvider.contribThr mf)) (some 6) ] := by
  unfold LambdaMetricProvider.createWidgets
  rw [if_neg (by simpa using h), lambda_foldl_char]
  simp

theorem dynamo_createWidgets_eq (mf : MetricFactory) (ts : List TableRes)
    (h : ts ≠ []) :
    DynamoDBMetricProvider.createWidgets mf ts =
      [ mf.createGraphWidget "DynamoDB - Capacity Units"
          (ts.filterMap (DynamoDBMetricProvider.contribReadCap mf)
            ++ ts.filterMap (DynamoDBMetricProvider.contribWriteCap mf)) (some 6),
        mf.createGraphWidget "DynamoDB - Throttle Events"
          (ts.filterMap (DynamoDBMetricProvider.contribReadThr mf)
            ++ ts.filterMap (DynamoDBMetricProvider.contribWriteThr mf)) (some 6),
        mf.createGraphWidget "DynamoDB - Query Latency"
          (ts.filterMap (DynamoDBMetricProvider.contribQuery mf)) (some 6),
        mf.createGraphWidget "DynamoDB - Scan Latency"
          (ts.filterMap (DynamoDBMetricProvider.contribScan mf)) (some 6) ] := by
  unfold DynamoDBMetricProvider.createWidgets
  rw [if_neg (by simpa using h), dynamo_foldl_char]
  simp

theorem sns_createWidgets_eq (mf : MetricFactory) (ts : List TopicRes)
    (h : ts ≠ []) :
    SNSMetricProvider.createWidgets mf ts =
      [ mf.createGraphWidget "SNS - Published Messages"
          (ts.filterMap (SNSMetricProvider.contribOf mf "NumberOfMessagesPublished"))
          (some 8),
        mf.createGraphWidget "SNS - Notifications Delivered"
          (ts.filterMap (SNSMetricProvider.contribOf mf "NumberOfNotificationsDelivered"))
          (some 8),
        mf.createGraphWidget "SNS - Notifications Failed"
          (ts.filterMap (SNSMetricProvider.contribOf mf "NumberOfNotificationsFailed"))
          (some 8) ] := by
  unfold SNSMetricProvider.createWidgets
  rw [if_neg (by simpa using h), sns_foldl_char]
  simp

theorem sqs_createWidgets_eq (mf : MetricFactory) (qs : List QueueRes)
    (h : qs ≠ []) :
    SQSMetricProvider.createWidgets mf qs =
      [ mf.createGraphWidget "SQS - Messages Sent"
          (qs.filterMap (SQSMetricProvider.contribOf mf "NumberOfMessagesSent"))
          (some 6),
        mf.createGraphWidget "SQS - Messages Received"
          (qs.filterMap (SQSMetricProvider.contribOf mf "NumberOfMessagesReceived"))
          (some 6),
        mf.createGraphWidget "SQS - Visible Messages"
          (qs.filterMap (SQSMetricProvider.contribOf mf "ApproximateNumberOfMessagesVisible"))
          (some 6),
        mf.createGraphWidget "SQS - Age of Oldest Message (seconds)"
          (qs.filterMap (SQSMetricProvider.contribOf mf "ApproximateAgeOfOldestMessage"))
          (some 6) ] := by
  unfold SQSMetricProvider.createWidgets
  rw [if_neg (by simpa using h), sqs_foldl_char]
  simp

theorem apigw_createWidgets_eq (mf : MetricFactory) (as : List RestApiRes)
    (h : as ≠ []) :
    ApiGatewayMetricProvider.createWidgets mf as =
      [ mf.createGraphWidget "API Gateway - Request Count"
          (as.filterMap (ApiGatewayMetricProvider.contribOf mf "Count")) none,
        mf.createGraphWidget "API Gateway - Latency (ms)"
          (as.filterMap (ApiGatewayMetricProvider.contribOf mf "Latency")) none,
        mf.createGraphWidget "API Gateway - 4XX Errors"
          (as.filterMap (ApiGatewayMetricProvider.contribOf mf "4XXError")) none,
        mf.createGraphWidget "API Gateway - 5XX Errors"
          (as.filterMap (ApiGatewayMetricProvider.contribOf mf "5XXError")) none ] := by
  unfold ApiGatewayMetricProvider.createWidgets
  rw [if_neg (by simpa using h), apigw_foldl_char]
  simp

theorem method_createWidgets_eq (mf : MetricFactory) (ms : List MethodRes)
    (h : ms ≠ []) :
    ApiMethodMetricProvider.createWidgets mf ms =
      [ mf.createGraphWidget "API Gateway Method - Request Count"
          (ms.filterMap (ApiMethodMetricProvider.contribOf mf "Count")) (some 8),
        mf.createGraphWidget "API Gateway Method - Latency (ms)"
          (ms.filterMap (ApiMethodMetricProvider.contribOf mf "Latency")) (some 8),
        mf.createGraphWidget "API Gateway Method - Error Rate"
          (ms.filterMap (ApiMethodMetricProvider.contribOf mf "4XXError")
            ++ ms.filterMap (ApiMethodMetricProvider.contribOf mf "5XXError"))
          (some 8) ] := by
  unfold ApiMethodMetricProvider.createWidgets
  rw [if_neg (by simpa using h), method_foldl_char]
  simp

/-! ## Provider widget titles -/

theorem lambda_title_mem (mf : MetricFactory) (fs : List LambdaRes)
    (w : GraphWidget) (hw : w ∈ LambdaMetricProvider.createWidgets mf fs) :
    w.title ∈ LambdaMetricProvider.titles := by
  cases fs with
  | nil => simp [LambdaMetricProvider.createWidgets] at hw
  | cons f fs =>
    rw [lambda_createWidgets_eq mf (f :: fs) (by simp)] at hw
    simp only [List.mem_cons, List.not_mem_nil, or_false] at hw
    rcases hw with rfl | rfl | rfl | rfl <;>
      simp [MetricFactory.createGraphWidget, LambdaMetricProvider.titles]

theorem dynamo_title_mem (mf : MetricFactory) (ts : List TableRes)
    (w : GraphWidget) (hw : w ∈ DynamoDBMetricProvider.createWidgets mf ts) :
    w.title ∈ DynamoDBMetricProvider.titles := by
  cases ts with
  | nil => simp [DynamoDBMetricProvider.createWidgets] at hw
  | cons t ts =>
    rw [dynamo_createWidgets_eq mf (t :: ts) (by simp)] at hw
    simp only [List.mem_cons, List.not_mem_nil, or_false] at hw
    rcases hw with rfl | rfl | rfl | rfl <;>
      simp [MetricFactory.createGraphWidget, DynamoDBMetricProvider.titles]

theorem sns_title_mem (mf : MetricFactory) (ts : List TopicRes)
    (w : GraphWidget) (hw : w ∈ SNSMetricProvider.createWidgets mf ts) :
    w.title ∈ SNSMetricProvider.titles := by
  cases ts with
  | nil => simp [SNSMetricProvider.createWidgets] at hw
  | cons t ts =>
    rw [sns_createWidgets_eq mf (t :: ts) (by simp)] at hw
    simp only [List.mem_cons, List.not_mem_nil, or_false] at hw
    rcases hw with rfl | rfl | rfl <;>
      simp [MetricFactory.createGraphWidget, SNSMetricProvider.titles]

theorem sqs_title_mem (mf : MetricFactory) (qs : List QueueRes)
    (w : GraphWidget) (hw : w ∈ SQSMetricProvider.createWidgets mf qs) :
    w.title ∈ SQSMetricProvider.titles := by
  cases qs with
  | nil => simp [SQSMetricProvider.createWidgets] at hw
  | cons q qs =>
    rw [sqs_createWidgets_eq mf (q :: qs) (by simp)] at hw
    simp only [List.mem_cons, List.not_mem_nil, or_false] at hw
    rcases hw with rfl | rfl | rfl | rfl <;>
      simp [MetricFactory.createGraphWidget, SQSMetricProvider.titles]

theorem apigw_title_mem (mf : MetricFactory) (as : List RestApiRes)
    (w : GraphWidget) (hw : w ∈ ApiGatewayMetricProvider.createWidgets mf as) :
    w.title ∈ ApiGatewayMetricProvider.titles := by
  cases as with
  | nil => simp [ApiGatewayMetricProvider.createWidgets] at hw
  | cons a as =>
    rw [apigw_createWidgets_eq mf (a :: as) (by simp)] at hw
    simp only [List.mem_cons, List.not_mem_nil, or_false] at hw
    rcases hw with rfl | rfl | rfl | rfl <;>
      simp [MetricFactory.createGraphWidget, ApiGatewayMetricProvider.titles]

/-! ## CdkDashboard state lemmas -/

theorem assembleWidgets_split (s : CdkState) :
    assembleWidgets s = s.widgets ++ autoWidgets s := by
  simp [assembleWidgets, autoWidgets, List.append_assoc]

theorem pushNode_widgets (s : CdkState) (n : Node) :
    (pushNode s n).widgets = s.widgets := by
  unfold pushNode
  cases hc : classify n with
  | none => rfl
  | some b => cases b <;> rfl

theorem visit_widgets (s : CdkState) (n : Node) :
    (s.visit n).widgets = s.widgets := by
  unfold CdkState.visit
  cases hc : classify n with
  | none => rfl
  | some b => simpa using pushNode_widgets s n

theorem runVisits_widgets : ∀ (ns : List Node) (s : CdkState),
    (runVisits s ns).widgets = s.widgets
  | [], _ => rfl
  | n :: ns, s => by
    have ih := runVisits_widgets ns (s.visit n)
    unfold runVisits at ih ⊢
    rw [List.foldl_cons, ih, visit_widgets]

theorem assembleWidgets_set_rows (s : CdkState) (r : List GraphWidget) :
    assembleWidgets { s with rows := r } = assembleWidgets s := rfl

theorem visit_rows (s : CdkState) (n : Node)
    (h : s.rows = assembleWidgets s) :
    (s.visit n).rows = assembleWidgets (s.visit n) := by
  unfold CdkState.visit
  cases hc : classify n with
  | none => exact h
  | some b => simp [assembleWidgets_set_rows]

theorem runVisits_rows : ∀ (ns : List Node) (s : CdkState),
    s.rows = assembleWidgets s →
    (runVisits s ns).rows = assembleWidgets (runVisits s ns)
  | [], _, h => h
  | n :: ns, s, h => by
    have ih := runVisits_rows ns (s.visit n) (visit_rows s n h)
    unfold runVisits at ih ⊢
    rw [List.foldl_cons]
    exact ih

theorem dynamo_length_four (mf : MetricFactory) (ts : List TableRes)
    (h : ts ≠ []) :
    (DynamoDBMetricProvider.createWidgets mf ts).length = 4 := by
  rw [dynamo_createWidgets_eq mf ts h]
  rfl

theorem lambda_length_four (mf : MetricFactory) (fs : List LambdaRes)
    (h : fs ≠ []) :
    (LambdaMetricProvider.createWidgets mf fs).length = 4 := by
  rw [lambda_createWidgets_eq mf fs h]
  rfl

/-! ## Validity and contribution lemmas for failure isolation -/

theorem isOkE_true_iff {α : Type} (e : Except Unit α) :
    isOkE e = true ↔ ∃ a, e = .ok a := by
  cases e <;> simp [isOkE, exOpt]

theorem not_isOkE_error {α : Type} (e : Except Unit α)
    (h : (!isOkE e) = true) : e = .error () := by
  cases e with
  | ok a => simp [isOkE, exOpt] at h
  | error u => cases u; rfl

theorem lambda_idFaulty_extract (mf : MetricFactory) (f : LambdaRes)
    (h : LambdaMetricProvider.idFaulty f = true) :
    LambdaMetricProvider.invMetric mf f = .error ()
    ∧ LambdaMetricProvider.durMetric mf f = .error ()
    ∧ LambdaMetricProvider.errMetric mf f = .error ()
    ∧ LambdaMetricProvider.thrMetric mf f = .error () := by
  unfold LambdaMetricProvider.idFaulty at h
  simp only [Bool.and_eq_true] at h
  obtain ⟨⟨⟨⟨h1, h2⟩, h3⟩, h4⟩, h5⟩ := h
  have hfn : f.functionName = .error () := not_isOkE_error _ h1
  have h2n : f.metricInvocations = none := Option.isNone_iff_eq_none.mp h2
  have h3n : f.metricDuration = none := Option.isNone_iff_eq_none.mp h3
  have h4n : f.metricErrors = none := Option.isNone_iff_eq_none.mp h4
  have h5n : f.metricThrottles = none := Option.isNone_iff_eq_none.mp h5
  refine ⟨?_, ?_, ?_, ?_⟩ <;>
    simp [LambdaMetricProvider.invMetric, LambdaMetricProvider.durMetric,
      LambdaMetricProvider.errMetric, LambdaMetricProvider.thrMetric,
      hfn, h2n, h3n, h4n, h5n]

theorem lambda_okRes_extract (mf : MetricFactory) (f : LambdaRes)
    (h : LambdaMetricProvider.okRes mf f = true) :
    (∃ m, LambdaMetricProvider.invMetric mf f = .ok m)
    ∧ (∃ m, LambdaMetricProvider.durMetric mf f = .ok m)
    ∧ (∃ m, LambdaMetricProvider.errMetric mf f = .ok m)
    ∧ (∃ m, LambdaMetricProvider.thrMetric mf f = .ok m) := by
  unfold LambdaMetricProvider.okRes at h
  simp only [Bool.and_eq_true] at h
  obtain ⟨⟨⟨h1, h2⟩, h3⟩, h4⟩ := h
  exact ⟨(isOkE_true_iff _).mp h1, (isOkE_true_iff _).mp h2,
    (isOkE_true_iff _).mp h3, (isOkE_true_iff _).mp h4⟩

theorem lambda_contrib_isSome (mf : MetricFactory) (f : LambdaRes)
    (h : LambdaMetricProvider.okRes mf f = true
      ∨ LambdaMetricProvider.idFaulty f = true) :
    ((LambdaMetricProvider.contribInv mf f).isSome
        = LambdaMetricProvider.okRes mf f)
    ∧ ((LambdaMetricProvider.contribDur mf f).isSome
        = LambdaMetricProvider.okRes mf f)
    ∧ ((LambdaMetricProvider.contribErr mf f).isSome
        = LambdaMetricProvider.okRes mf f)
    ∧ ((LambdaMetricProvider.contribThr mf f).isSome
        = LambdaMetricProvider.okRes mf f) := by
  rcases h with hok | hfa
  · obtain ⟨⟨m1, e1⟩, ⟨m2, e2⟩, ⟨m3, e3⟩, ⟨m4, e4⟩⟩ :=
      lambda_okRes_extract mf f hok
    rw [hok]
    refine ⟨?_, ?_, ?_, ?_⟩ <;>
      simp [LambdaMetricProvider.contribInv, LambdaMetricProvider.contribDur,
        LambdaMetricProvider.contribErr, LambdaMetricProvider.contribThr,
        e1, e2, e3, e4, exOpt]
  · obtain ⟨e1, e2, e3, e4⟩ := lambda_idFaulty_extract mf f hfa
    have hok0 : LambdaMetricProvider.okRes mf f = false := by
      unfold LambdaMetricProvider.okRes
      rw [e1]
      simp [isOkE, exOpt]
    rw [hok0]
    refine ⟨?_, ?_, ?_, ?_⟩ <;>
      simp [LambdaMetricProvider.contribInv, LambdaMetricProvider.contribDur,
        LambdaMetricProvider.contribErr, LambdaMetricProvider.contribThr,
        e1, e2, e3, e4, exOpt]

theorem dynamo_okRes_extract (mf : MetricFactory) (t : TableRes)
    (h : DynamoDBMetricProvider.okRes mf t = true) :
    ∃ n, t.tableName = .ok n
      ∧ (∃ m, DynamoDBMetricProvider.readCapMetric mf
          (DynamoDBMetricProvider.dimsOf n) t = .ok m)
      ∧ (∃ m, DynamoDBMetricProvider.writeCapMetric mf
          (DynamoDBMetricProvider.dimsOf n) t = .ok m) := by
  unfold DynamoDBMetricProvider.okRes at h
  cases htn : t.tableName with
  | error u => rw [htn] at h; simp at h
  | ok n =>
    rw [htn] at h
    simp only [Bool.and_eq_true] at h
    obtain ⟨h1, h2⟩ := h
    exact ⟨n, rfl, (isOkE_true_iff _).mp h1, (isOkE_true_iff _).mp h2⟩

theorem dynamo_contrib_isSome (mf : MetricFactory) (t : TableRes)
    (h : DynamoDBMetricProvider.okRes mf t = true
      ∨ DynamoDBMetricProvider.idFaulty t = true) :
    ((DynamoDBMetricProvider.contribReadCap mf t).isSome
        = DynamoDBMetricProvider.okRes mf t)
    ∧ ((DynamoDBMetricProvider.contribWriteCap mf t).isSome
        = DynamoDBMetricProvider.okRes mf t)
    ∧ ((DynamoDBMetricProvider.contribReadThr mf t).isSome
        = DynamoDBMetricProvider.okRes mf t)
    ∧ ((DynamoDBMetricProvider.contribWriteThr mf t).isSome
        = DynamoDBMetricProvider.okRes mf t)
    ∧ ((DynamoDBMetricProvider.contribQuery mf t).isSome
        = DynamoDBMetricProvider.okRes mf t)
    ∧ ((DynamoDBMetricProvider.contribScan mf t).isSome
        = DynamoDBMetricProvider.okRes mf t) := by
  rcases h with hok | hfa
  · obtain ⟨n, htn, ⟨m1, e1⟩, ⟨m2, e2⟩⟩ := dynamo_okRes_extract mf t hok
    rw [hok]
    refine ⟨?_, ?_, ?_, ?_, ?_, ?_⟩ <;>
      simp [DynamoDBMetricProvider.contribReadCap,
        DynamoDBMetricProvider.contribWriteCap,
        DynamoDBMetricProvider.contribReadThr,
        DynamoDBMetricProvider.contribWriteThr,
        DynamoDBMetricProvider.contribQuery,
        DynamoDBMetricProvider.contribScan, htn, e1, e2, exOpt]
  · have htn : t.tableName = .error () :=
      not_isOkE_error _ hfa
    have hok0 : DynamoDBMetricProvider.okRes mf t = false := by
      unfold DynamoDBMetricProvider.okRes
      rw [htn]
    rw [hok0]
    refine ⟨?_, ?_, ?_, ?_, ?_, ?_⟩ <;>
      simp [DynamoDBMetricProvider.contribReadCap,
        DynamoDBMetricProvider.contribWriteCap,
        DynamoDBMetricProvider.contribReadThr,
        DynamoDBMetricProvider.contribWriteThr,
        DynamoDBMetricProvider.contribQuery,
        DynamoDBMetricProvider.contribScan, htn]

theorem sns_contrib_isSome (mf : MetricFactory) (metricName : String)
    (t : TopicRes) :
    (SNSMetricProvider.contribOf mf metricName t).isSome
      = SNSMetricProvider.okRes t := by
  cases h : t.topicName <;>
    simp [SNSMetricProvider.contribOf, SNSMetricProvider.okRes, isOkE,
      exOpt, h]

theorem sqs_contrib_isSome (mf : MetricFactory) (metricName : String)
    (q : QueueRes) :
    (SQSMetricProvider.contribOf mf metricName q).isSome
      = SQSMetricProvider.okRes q := by
  cases h : q.queueName <;>
    simp [SQSMetricProvider.contribOf, SQSMetricProvider.okRes, isOkE,
      exOpt, h]

theorem apigw_contrib_isSome (mf : MetricFactory) (metricName : String)
    (a : RestApiRes) :
    (ApiGatewayMetricProvider.contribOf mf metricName a).isSome
      = ApiGatewayMetricProvider.okRes a := by
  cases h : a.restApiName <;>
    simp [ApiGatewayMetricProvider.contribOf, ApiGatewayMetricProvider.okRes,
      isOkE, exOpt, h]

theorem method_contrib_isSome (mf : MetricFactory) (metricName : String)
    (m : MethodRes) :
    (ApiMethodMetricProvider.contribOf mf metricName m).isSome
      = ApiMethodMetricProvider.okRes m := by
  cases h : m.resourcePath <;>
    simp [ApiMethodMetricProvider.contribOf, ApiMethodMetricProvider.okRes,
      isOkE, exOpt, h]

/-! ## Claim theorems -/

/-- Claim C1: for a traversal in which exactly one node was bucketed as a
table and exactly one as a function (and the other four buckets stay
empty), the published row list of the `CdkDashboard` is exactly the four
DynamoDB widgets followed by the four Lambda widgets — eight widgets, with
the table widgets first, because the per-visit rebuild emits kinds in the
fixed order Table, Function, Queue, HttpApi, HttpMethod, Topic. -/
theorem claim_c1_end_to_end_order (ns : List Node) (t f : Node)
    (h1 : (runVisits initState ns).dydbTables = [t])
    (h2 : (runVisits initState ns).lambdas = [f])
    (h3 : (runVisits initState ns).queues = [])
    (h4 : (runVisits initState ns).apiMethods = [])
    (h5 : (runVisits initState ns).snsTopics = [])
    (h6 : (runVisits initState ns).apiGateways = []) :
    (runVisits initState ns).rows =
      DynamoDBMetricProvider.createWidgets cdkFactory [t.asTable]
        ++ LambdaMetricProvider.createWidgets cdkFactory [f.asLambda]
    ∧ (runVisits initState ns).rows.length = 8
    ∧ (DynamoDBMetricProvider.createWidgets cdkFactory [t.asTable]).length = 4
    ∧ (LambdaMetricProvider.createWidgets cdkFactory [f.asLambda]).length = 4 := by
  have hrows := runVisits_rows ns initState rfl
  have hw := runVisits_widgets ns initState
  have hd : (DynamoDBMetricProvider.createWidgets cdkFactory [t.asTable]).length = 4 :=
    dynamo_length_four cdkFactory _ (by simp)
  have hlam : (LambdaMetricProvider.createWidgets cdkFactory [f.asLambda]).length = 4 :=
    lambda_length_four cdkFactory _ (by simp)
  have hmain : (runVisits initState ns).rows =
      DynamoDBMetricProvider.createWidgets cdkFactory [t.asTable]
        ++ LambdaMetricProvider.createWidgets cdkFactory [f.asLambda] := by
    rw [hrows]
    unfold assembleWidgets
    rw [h1, h2, h3, h4, h5, h6, hw]
    simp only [List.map_cons, List.map_nil]
    show [] ++ _ ++ _ ++ SQSMetricProvider.createWidgets cdkFactory []
        ++ ApiGatewayMetricProvider.createWidgets cdkFactory []
        ++ ApiMethodMetricProvider.createWidgets cdkFactory []
        ++ SNSMetricProvider.createWidgets cdkFactory [] = _
    rw [show SQSMetricProvider.createWidgets cdkFactory [] = [] from rfl,
      show ApiGatewayMetricProvider.createWidgets cdkFactory [] = [] from rfl,
      show ApiMethodMetricProvider.createWidgets cdkFactory [] = [] from rfl,
      show SNSMetricProvider.createWidgets cdkFactory [] = [] from rfl]
    simp
  refine ⟨hmain, ?_, hd, hlam⟩
  rw [hmain]
  simp [hd, hlam]

theorem witness_c1 :
    (runVisits initState [itemsTableNode, procFnNode]).rows.length = 8 :=
  (claim_c1_end_to_end_order [itemsTableNode, procFnNode]
    itemsTableNode procFnNode (by decide) (by decide) (by decide)
    (by decide) (by decide) (by decide)).2.1

/-- Claim C2: every one of the six providers returns the empty widget list
on an empty resource list — the identical short-circuit at the top of each
createWidgets. -/
theorem claim_c2_empty_input (mf : MetricFactory) :
    LambdaMetricProvider.createWidgets mf [] = []
    ∧ DynamoDBMetricProvider.createWidgets mf [] = []
    ∧ SNSMetricProvider.createWidgets mf [] = []
    ∧ SQSMetricProvider.createWidgets mf [] = []
    ∧ ApiGatewayMetricProvider.createWidgets mf [] = []
    ∧ ApiMethodMetricProvider.createWidgets mf [] = [] :=
  ⟨rfl, rfl, rfl, rfl, rfl, rfl⟩

/-- Claim C3: dashboard assembly is a deterministic function of the
resource-collection snapshot — two states agreeing on all six kind buckets
(same resources in the same discovery order) and on the registered custom
widgets assemble to identical ordered widget lists, whatever else (such as
the previously published rows) differs. -/
theorem claim_c3_determinism (s1 s2 : CdkState)
    (ht : s1.dydbTables = s2.dydbTables) (hl : s1.lambdas = s2.lambdas)
    (hq : s1.queues = s2.queues) (hm : s1.apiMethods = s2.apiMethods)
    (hg : s1.apiGateways = s2.apiGateways) (hs : s1.snsTopics = s2.snsTopics)
    (hw : s1.widgets = s2.widgets) :
    assembleWidgets s1 = assembleWidgets s2 := by
  unfold assembleWidgets
  rw [ht, hl, hq, hm, hg, hs, hw]

theorem witness_c3 :
    assembleWidgets ({ dydbTables := [itemsTableNode] } : CdkState)
      = assembleWidgets
        ({ dydbTables := [itemsTableNode], rows := [customW] } : CdkState) :=
  claim_c3_determinism _ _ rfl rfl rfl rfl rfl rfl rfl

/-- Claim C5: for every non-empty table list the DynamoDB provider emits
exactly four widgets — Capacity Units (read and write combined), Throttle
Events (read and write combined), Query Latency and Scan Latency — not one
widget per metric type. -/
theorem claim_c5_table_four_widgets (mf : MetricFactory) (ts : List TableRes)
    (h : ts ≠ []) :
    (DynamoDBMetricProvider.createWidgets mf ts).length = 4
    ∧ (DynamoDBMetricProvider.createWidgets mf ts).map GraphWidget.title
        = DynamoDBMetricProvider.titles := by
  rw [dynamo_createWidgets_eq mf ts h]
  simp [MetricFactory.createGraphWidget, DynamoDBMetricProvider.titles]

theorem witness_c5 :
    (DynamoDBMetricProvider.createWidgets cdkFactory [validTable]).length = 4
    ∧ (DynamoDBMetricProvider.createWidgets cdkFactory [validTable]).map
        GraphWidget.title = DynamoDBMetricProvider.titles :=
  claim_c5_table_four_widgets cdkFactory [validTable] (by simp)

/-- Claim C4, counterexample: the claim says every produced widget of
every provider has one metric per valid input entry, but the DynamoDB
provider on a single fully valid table produces a Capacity Units widget
(and a Throttle Events widget) holding two metrics — the read and the
write series — for that one valid entry. -/
theorem counterexample_c4_combined_widget :
    (DynamoDBMetricProvider.createWidgets cdkFactory [validTable]).map
        (fun w => w.metrics.length) = [2, 2, 1, 1]
    ∧ ([validTable].filter
        (DynamoDBMetricProvider.okRes cdkFactory)).length = 1
    ∧ (2 : Nat) ≠ 1 := by
  decide

/-- Claim C4, amended: for every provider, a resource whose identity
extraction throws is skipped while processing continues (createWidgets is
total and never throws), and on a non-empty input whose entries are each
either fully extractable or identity-faulty, every widget holds one metric
per valid entry — except the combined widgets, which hold two per valid
entry: the Table Capacity Units and Throttle Events widgets and the
HttpMethod Error Rate widget. -/
theorem claim_c4_amended_isolation :
    (∀ (mf : MetricFactory) (fs : List LambdaRes), fs ≠ [] →
      (∀ f ∈ fs, LambdaMetricProvider.okRes mf f = true
        ∨ LambdaMetricProvider.idFaulty f = true) →
      (LambdaMetricProvider.createWidgets mf fs).map
          (fun w => w.metrics.length)
        = List.replicate 4
            ((fs.filter (LambdaMetricProvider.okRes mf)).length))
    ∧ (∀ (mf : MetricFactory) (ts : List TableRes), ts ≠ [] →
      (∀ t ∈ ts, DynamoDBMetricProvider.okRes mf t = true
        ∨ DynamoDBMetricProvider.idFaulty t = true) →
      (DynamoDBMetricProvider.createWidgets mf ts).map
          (fun w => w.metrics.length)
        = [2 * (ts.filter (DynamoDBMetricProvider.okRes mf)).length,
           2 * (ts.filter (DynamoDBMetricProvider.okRes mf)).length,
           (ts.filter (DynamoDBMetricProvider.okRes mf)).length,
           (ts.filter (DynamoDBMetricProvider.okRes mf)).length])
    ∧ (∀ (mf : MetricFactory) (ts : List TopicRes), ts ≠ [] →
      (SNSMetricProvider.createWidgets mf ts).map
          (fun w => w.metrics.length)
        = List.replicate 3 ((ts.filter SNSMetricProvider.okRes).length))
    ∧ (∀ (mf : MetricFactory) (qs : List QueueRes), qs ≠ [] →
      (SQSMetricProvider.createWidgets mf qs).map
          (fun w => w.metrics.length)
        = List.replicate 4 ((qs.filter SQSMetricProvider.okRes).length))
    ∧ (∀ (mf : MetricFactory) (as : List RestApiRes), as ≠ [] →
      (ApiGatewayMetricProvider.createWidgets mf as).map
          (fun w => w.metrics.length)
        = List.replicate 4
            ((as.filter ApiGatewayMetricProvider.okRes).length))
    ∧ (∀ (mf : MetricFactory) (ms : List MethodRes), ms ≠ [] →
      (ApiMethodMetricProvider.createWidgets mf ms).map
          (fun w => w.metrics.length)
        = [(ms.filter ApiMethodMetricProvider.okRes).length,
           (ms.filter ApiMethodMetricProvider.okRes).length,
           2 * (ms.filter ApiMethodMetricProvider.okRes).length]) := by
  refine ⟨?_, ?_, ?_, ?_, ?_, ?_⟩
  · intro mf fs hne hall
    have c1 := length_filterMap_eq_filter (LambdaMetricProvider.contribInv mf)
      (LambdaMetricProvider.okRes mf) fs
      (fun f hf => (lambda_contrib_isSome mf f (hall f hf)).1)
    have c2 := length_filterMap_eq_filter (LambdaMetricProvider.contribDur mf)
      (LambdaMetricProvider.okRes mf) fs
      (fun f hf => (lambda_contrib_isSome mf f (hall f hf)).2.1)
    have c3 := length_filterMap_eq_filter (LambdaMetricProvider.contribErr mf)
      (LambdaMetricProvider.okRes mf) fs
      (fun f hf => (lambda_contrib_isSome mf f (hall f hf)).2.2.1)
    have c4 := length_filterMap_eq_filter (LambdaMetricProvider.contribThr mf)
      (LambdaMetricProvider.okRes mf) fs
      (fun f hf => (lambda_contrib_isSome mf f (hall f hf)).2.2.2)
    rw [lambda_createWidgets_eq mf fs hne]
    simp [MetricFactory.createGraphWidget, List.replicate, c1, c2, c3, c4]
  · intro mf ts hne hall
    have c1 := length_filterMap_eq_filter
      (DynamoDBMetricProvider.contribReadCap mf)
      (DynamoDBMetricProvider.okRes mf) ts
      (fun t ht => (dynamo_contrib_isSome mf t (hall t ht)).1)
    have c2 := length_filterMap_eq_filter
      (DynamoDBMetricProvider.contribWriteCap mf)
      (DynamoDBMetricProvider.okRes mf) ts
      (fun t ht => (dynamo_contrib_isSome mf t (hall t ht)).2.1)
    have c3 := length_filterMap_eq_filter
      (DynamoDBMetricProvider.contribReadThr mf)
      (DynamoDBMetricProvider.okRes mf) ts
      (fun t ht => (dynamo_contrib_isSome mf t (hall t ht)).2.2.1)
    have c4 := length_filterMap_eq_filter
      (DynamoDBMetricProvider.contribWriteThr mf)
      (DynamoDBMetricProvider.okRes mf) ts
      (fun t ht => (dynamo_contrib_isSome mf t (hall t ht)).2.2.2.1)
    have c5 := length_filterMap_eq_filter
      (DynamoDBMetricProvider.contribQuery mf)
      (DynamoDBMetricProvider.okRes mf) ts
      (fun t ht => (dynamo_contrib_isSome mf t (hall t ht)).2.2.2.2.1)
    have c6 := length_filterMap_eq_filter
      (DynamoDBMetricProvider.contribScan mf)
      (DynamoDBMetricProvider.okRes mf) ts
      (fun t ht => (dynamo_contrib_isSome mf t (hall t ht)).2.2.2.2.2)
    rw [dynamo_createWidgets_eq mf ts hne]
    simp [MetricFactory.createGraphWidget, c1, c2, c3, c4, c5, c6, two_mul]
  · intro mf ts hne
    have c1 := length_filterMap_eq_filter
      (SNSMetricProvider.contribOf mf "NumberOfMessagesPublished")
      SNSMetricProvider.okRes ts (fun t _ => sns_contrib_isSome mf _ t)
    have c2 := length_filterMap_eq_filter
      (SNSMetricProvider.contribOf mf "NumberOfNotificationsDelivered")
      SNSMetricProvider.okRes ts (fun t _ => sns_contrib_isSome mf _ t)
    have c3 := length_filterMap_eq_filter
      (SNSMetricProvider.contribOf mf "NumberOfNotificationsFailed")
      SNSMetricProvider.okRes ts (fun t _ => sns_contrib_isSome mf _ t)
    rw [sns_createWidgets_eq mf ts hne]
    simp [MetricFactory.createGraphWidget, List.replicate, c1, c2, c3]
  · intro mf qs hne
    have c1 := length_filterMap_eq_filter
      (SQSMetricProvider.contribOf mf "NumberOfMessagesSent")
      SQSMetricProvider.okRes qs (fun q _ => sqs_contrib_isSome mf _ q)
    have c2 := length_filterMap_eq_filter
      (SQSMetricProvider.contribOf mf "NumberOfMessagesReceived")
      SQSMetricProvider.okRes qs (fun q _ => sqs_contrib_isSome mf _ q)
    have c3 := length_filterMap_eq_filter
      (SQSMetricProvider.contribOf mf "ApproximateNumberOfMessagesVisible")
      SQSMetricProvider.okRes qs (fun q _ => sqs_contrib_isSome mf _ q)
    have c4 := length_filterMap_eq_filter
      (SQSMetricProvider.contribOf mf "ApproximateAgeOfOldestMessage")
      SQSMetricProvider.okRes qs (fun q _ => sqs_contrib_isSome mf _ q)
    rw [sqs_createWidgets_eq mf qs hne]
    simp [MetricFactory.createGraphWidget, List.replicate, c1, c2, c3, c4]
  · intro mf as hne
    have c1 := length_filterMap_eq_filter
      (ApiGatewayMetricProvider.contribOf mf "Count")
      ApiGatewayMetricProvider.okRes as
      (fun a _ => apigw_contrib_isSome mf _ a)
    have c2 := length_filterMap_eq_filter
      (ApiGatewayMetricProvider.contribOf mf "Latency")
      ApiGatewayMetricProvider.okRes as
      (fun a _ => apigw_contrib_isSome mf _ a)
    have c3 := length_filterMap_eq_filter
      (ApiGatewayMetricProvider.contribOf mf "4XXError")
      ApiGatewayMetricProvider.okRes as
      (fun a _ => apigw_contrib_isSome mf _ a)
    have c4 := length_filterMap_eq_filter
      (ApiGatewayMetricProvider.contribOf mf "5XXError")
      ApiGatewayMetricProvider.okRes as
      (fun a _ => apigw_contrib_isSome mf _ a)
    rw [apigw_createWidgets_eq mf as hne]
    simp [MetricFactory.createGraphWidget, List.replicate, c1, c2, c3, c4]
  · intro mf ms hne
    have c1 := length_filterMap_eq_filter
      (ApiMethodMetricProvider.contribOf mf "Count")
      ApiMethodMetricProvider.okRes ms
      (fun m _ => method_contrib_isSome mf _ m)
    have c2 := length_filterMap_eq_filter
      (ApiMethodMetricProvider.contribOf mf "Latency")
      ApiMethodMetricProvider.okRes ms
      (fun m _ => method_contrib_isSome mf _ m)
    have c3 := length_filterMap_eq_filter
      (ApiMethodMetricProvider.contribOf mf "4XXError")
      ApiMethodMetricProvider.okRes ms
      (fun m _ => method_contrib_isSome mf _ m)
    have c4 := length_filterMap_eq_filter
      (ApiMethodMetricProvider.contribOf mf "5XXError")
      ApiMethodMetricProvider.okRes ms
      (fun m _ => method_contrib_isSome mf _ m)
    rw [method_createWidgets_eq mf ms hne]
    simp [MetricFactory.createGraphWidget, c1, c2, c3, c4, two_mul]

theorem witness_c4 :
    (LambdaMetricProvider.createWidgets cdkFactory [validFn, faultyFn]).map
        (fun w => w.metrics.length) = List.replicate 4 1
    ∧ (DynamoDBMetricProvider.createWidgets cdkFactory
        [validTable, faultyTable]).map (fun w => w.metrics.length)
        = [2, 2, 1, 1]
    ∧ (SNSMetricProvider.createWidgets cdkFactory
        [validTopic, faultyTopic]).map (fun w => w.metrics.length)
        = List.replicate 3 1
    ∧ (SQSMetricProvider.createWidgets cdkFactory
        [validQueue, faultyQueue]).map (fun w => w.metrics.length)
        = List.replicate 4 1
    ∧ (ApiGatewayMetricProvider.createWidgets cdkFactory
        [validApi, faultyApi]).map (fun w => w.metrics.length)
        = List.replicate 4 1
    ∧ (ApiMethodMetricProvider.createWidgets cdkFactory
        [methodGet, faultyMethod]).map (fun w => w.metrics.length)
        = [1, 1, 2] := by
  have h1 := claim_c4_amended_isolation.1 cdkFactory [validFn, faultyFn]
    (by decide) (by decide)
  have h2 := claim_c4_amended_isolation.2.1 cdkFactory
    [validTable, faultyTable] (by decide) (by decide)
  have h3 := claim_c4_amended_isolation.2.2.1 cdkFactory
    [validTopic, faultyTopic] (by decide)
  have h4 := claim_c4_amended_isolation.2.2.2.1 cdkFactory
    [validQueue, faultyQueue] (by decide)
  have h5 := claim_c4_amended_isolation.2.2.2.2.1 cdkFactory
    [validApi, faultyApi] (by decide)
  have h6 := claim_c4_amended_isolation.2.2.2.2.2 cdkFactory
    [methodGet, faultyMethod] (by decide)
  rw [show ([validFn, faultyFn].filter
    (LambdaMetricProvider.okRes cdkFactory)).length = 1 by decide] at h1
  rw [show ([validTable, faultyTable].filter
    (DynamoDBMetricProvider.okRes cdkFactory)).length = 1 by decide] at h2
  rw [show ([validTopic, faultyTopic].filter
    SNSMetricProvider.okRes).length = 1 by decide] at h3
  rw [show ([validQueue, faultyQueue].filter
    SQSMetricProvider.okRes).length = 1 by decide] at h4
  rw [show ([validApi, faultyApi].filter
    ApiGatewayMetricProvider.okRes).length = 1 by decide] at h5
  rw [show ([methodGet, faultyMethod].filter
    ApiMethodMetricProvider.okRes).length = 1 by decide] at h6
  exact ⟨h1, by simpa using h2, h3, h4, h5, by simpa using h6⟩

/-- Claim C6, counterexample: the claim puts the Function predicate before
the Table predicate, but `CdkDashboard.visit` tests the Table guard first:
a node matching both guards is bucketed as a table, not as a function. -/
theorem counterexample_c6_first_match_order :
    isLambdaFunction dualNode = true
    ∧ isDynamoDBTable dualNode = true
    ∧ classify dualNode = some Bucket.table
    ∧ classify dualNode ≠ some Bucket.lambdaFunction := by
  decide

/-- Claim C6, amended: `CdkDashboard.visit` classifies each node with
mutually exclusive first-match type predicates applied in the fixed order
Table, Function, Queue, HttpMethod, Topic, HttpApi (not Function first);
first match wins, each node joins at most one bucket, and a node matching
no predicate is ignored with no state change. -/
theorem claim_c6_amended_first_match (n : Node) (s : CdkState) :
    (isDynamoDBTable n = true → classify n = some Bucket.table)
    ∧ (isDynamoDBTable n = false → isLambdaFunction n = true →
        classify n = some Bucket.lambdaFunction)
    ∧ (isDynamoDBTable n = false → isLambdaFunction n = false →
        isQueue n = true → classify n = some Bucket.queue)
    ∧ (isDynamoDBTable n = false → isLambdaFunction n = false →
        isQueue n = false → isApiMethod n = true →
        classify n = some Bucket.apiMethod)
    ∧ (isDynamoDBTable n = false → isLambdaFunction n = false →
        isQueue n = false → isApiMethod n = false → isSnsTopic n = true →
        classify n = some Bucket.snsTopic)
    ∧ (isDynamoDBTable n = false → isLambdaFunction n = false →
        isQueue n = false → isApiMethod n = false → isSnsTopic n = false →
        isApiGateway n = true → classify n = some Bucket.apiGateway)
    ∧ (isDynamoDBTable n = false → isLambdaFunction n = false →
        isQueue n = false → isApiMethod n = false → isSnsTopic n = false →
        isApiGateway n = false → classify n = none)
    ∧ (classify n = none → s.visit n = s)
    ∧ bucketsLen (s.visit n) ≤ bucketsLen s + 1 := by
  refine ⟨?_, ?_, ?_, ?_, ?_, ?_, ?_, ?_, ?_⟩
  · intro h1; simp [classify, h1]
  · intro h1 h2; simp [classify, h1, h2]
  · intro h1 h2 h3; simp [classify, h1, h2, h3]
  · intro h1 h2 h3 h4; simp [classify, h1, h2, h3, h4]
  · intro h1 h2 h3 h4 h5; simp [classify, h1, h2, h3, h4, h5]
  · intro h1 h2 h3 h4 h5 h6; simp [classify, h1, h2, h3, h4, h5, h6]
  · intro h1 h2 h3 h4 h5 h6; simp [classify, h1, h2, h3, h4, h5, h6]
  · intro hc; simp [CdkState.visit, hc]
  · cases hc : classify n with
    | none => simp [CdkState.visit, hc]
    | some b =>
      cases b <;> simp [CdkState.visit, hc, pushNode, bucketsLen] <;> omega

theorem witness_c6 :
    classify dualNode = some Bucket.table
    ∧ initState.visit inertNode = initState
    ∧ bucketsLen (initState.visit dualNode) ≤ bucketsLen initState + 1 :=
  ⟨(claim_c6_amended_first_match dualNode initState).1 (by decide),
   (claim_c6_amended_first_match inertNode
     initState).2.2.2.2.2.2.2.1 (by decide),
   (claim_c6_amended_first_match dualNode initState).2.2.2.2.2.2.2.2⟩

/-- Claim C9, counterexample: a custom widget registered through
addWidgets after the last resource visit never reaches the published
rows — it sits in the custom list while the rows keep the value of the
last per-visit rebuild, so it does not appear at all. -/
theorem counterexample_c9_late_custom_widget :
    customW ∉ (runEvents initState
      [DashEvent.visit procFnNode, DashEvent.addWidgets [customW]]).rows
    ∧ (runEvents initState
      [DashEvent.visit procFnNode, DashEvent.addWidgets [customW]]).widgets
      = [customW] := by
  decide

theorem autoWidgets_set_rows (s : CdkState) (r : List GraphWidget) :
    autoWidgets { s with rows := r } = autoWidgets s := rfl

theorem events_inv : ∀ (es : List DashEvent) (s : CdkState),
    (∃ cw rest, s.widgets = cw ++ rest ∧ s.rows = cw ++ autoWidgets s) →
    ∃ cw rest, (runEvents s es).widgets = cw ++ rest
      ∧ (runEvents s es).rows = cw ++ autoWidgets (runEvents s es)
  | [], _, h => h
  | e :: es, s, h => by
    have hstep : ∃ cw rest, (stepEvent s e).widgets = cw ++ rest
        ∧ (stepEvent s e).rows = cw ++ autoWidgets (stepEvent s e) := by
      obtain ⟨cw, rest, hw, hr⟩ := h
      cases e with
      | addWidgets ws =>
        refine ⟨cw, rest ++ ws, ?_, ?_⟩
        · simp [stepEvent, CdkState.addWidgets, hw, List.append_assoc]
        · simpa [stepEvent, CdkState.addWidgets] using hr
      | visit n =>
        cases hc : classify n with
        | none =>
          exact ⟨cw, rest, by simp [stepEvent, CdkState.visit, hc, hw],
            by simp [stepEvent, CdkState.visit, hc, hr]⟩
        | some b =>
          refine ⟨(pushNode s n).widgets, [], ?_, ?_⟩
          · simp [stepEvent, CdkState.visit, hc]
          · simp [stepEvent, CdkState.visit, hc, autoWidgets_set_rows,
              assembleWidgets_split]
    have htail := events_inv es (stepEvent s e) hstep
    simpa [runEvents, List.foldl_cons] using htail

/-- Claim C9, amended: after any interleaving of visits and addWidgets
calls, the published rows are a prefix of the registered custom widgets —
those registered up to the last matched visit — followed by all
auto-discovered widgets, so every custom widget that appears precedes
every auto-discovered widget; custom widgets registered after the last
matched visit are simply absent until a later rebuild. -/
theorem claim_c9_amended_custom_first (es : List DashEvent) :
    ∃ cw rest, (runEvents initState es).widgets = cw ++ rest
      ∧ (runEvents initState es).rows
          = cw ++ autoWidgets (runEvents initState es) :=
  events_inv es initState ⟨[], [], rfl, rfl⟩

theorem method_contrib_eq (mf : MetricFactory) (metricName : String)
    (m : MethodRes) (h : ApiMethodMetricProvider.okRes m = true) :
    ApiMethodMetricProvider.contribOf mf metricName m
      = some (mf.createMetric "AWS/ApiGateway" metricName
          (ApiMethodMetricProvider.methodDims m.pathVal m.httpMethod)) := by
  unfold ApiMethodMetricProvider.okRes at h
  cases hp : m.resourcePath with
  | error u => rw [hp] at h; simp [isOkE, exOpt] at h
  | ok p =>
    simp [ApiMethodMetricProvider.contribOf, hp, MethodRes.pathVal, exOpt]

/-- Claim C10: for methods whose reads succeed, every produced metric is
dimensioned by `ApiName` = the resource path of the method (falling back
to `unknown-api` when undefined) and `Method` = the HTTP verb (falling
back to `unknown-method`), grouped per metric type in input order, and the
third widget (Error Rate) holds all 4XXError metrics followed by all
5XXError metrics, each in input order. -/
theorem claim_c10_method_dimensions (mf : MetricFactory)
    (ms : List MethodRes) (hne : ms ≠ [])
    (hok : ∀ m ∈ ms, ApiMethodMetricProvider.okRes m = true) :
    ApiMethodMetricProvider.createWidgets mf ms =
      [ mf.createGraphWidget "API Gateway Method - Request Count"
          (ms.map (fun m => mf.createMetric "AWS/ApiGateway" "Count"
            (ApiMethodMetricProvider.methodDims m.pathVal m.httpMethod)))
          (some 8),
        mf.createGraphWidget "API Gateway Method - Latency (ms)"
          (ms.map (fun m => mf.createMetric "AWS/ApiGateway" "Latency"
            (ApiMethodMetricProvider.methodDims m.pathVal m.httpMethod)))
          (some 8),
        mf.createGraphWidget "API Gateway Method - Error Rate"
          (ms.map (fun m => mf.createMetric "AWS/ApiGateway" "4XXError"
            (ApiMethodMetricProvider.methodDims m.pathVal m.httpMethod))
           ++ ms.map (fun m => mf.createMetric "AWS/ApiGateway" "5XXError"
            (ApiMethodMetricProvider.methodDims m.pathVal m.httpMethod)))
          (some 8) ] := by
  rw [method_createWidgets_eq mf ms hne,
    filterMap_eq_map_of_all_some (ApiMethodMetricProvider.contribOf mf "Count")
      _ ms (fun m hm => method_contrib_eq mf "Count" m (hok m hm)),
    filterMap_eq_map_of_all_some (ApiMethodMetricProvider.contribOf mf "Latency")
      _ ms (fun m hm => method_contrib_eq mf "Latency" m (hok m hm)),
    filterMap_eq_map_of_all_some (ApiMethodMetricProvider.contribOf mf "4XXError")
      _ ms (fun m hm => method_contrib_eq mf "4XXError" m (hok m hm)),
    filterMap_eq_map_of_all_some (ApiMethodMetricProvider.contribOf mf "5XXError")
      _ ms (fun m hm => method_contrib_eq mf "5XXError" m (hok m hm))]

theorem witness_c10 :
    (ApiMethodMetricProvider.createWidgets cdkFactory
        [methodGet, methodBare]).map (fun w => w.metrics) =
      [ [ cdkFactory.createMetric "AWS/ApiGateway" "Count"
            [("ApiName", some "/items"), ("Method", some "GET")],
          cdkFactory.createMetric "AWS/ApiGateway" "Count"
            [("ApiName", some "unknown-api"), ("Method", some "unknown-method")] ],
        [ cdkFactory.createMetric "AWS/ApiGateway" "Latency"
            [("ApiName", some "/items"), ("Method", some "GET")],
          cdkFactory.createMetric "AWS/ApiGateway" "Latency"
            [("ApiName", some "unknown-api"), ("Method", some "unknown-method")] ],
        [ cdkFactory.createMetric "AWS/ApiGateway" "4XXError"
            [("ApiName", some "/items"), ("Method", some "GET")],
          cdkFactory.createMetric "AWS/ApiGateway" "4XXError"
            [("ApiName", some "unknown-api"), ("Method", some "unknown-method")],
          cdkFactory.createMetric "AWS/ApiGateway" "5XXError"
            [("ApiName", some "/items"), ("Method", some "GET")],
          cdkFactory.createMetric "AWS/ApiGateway" "5XXError"
            [("ApiName", some "unknown-api"), ("Method", some "unknown-method")] ] ] := by
  rw [claim_c10_method_dimensions cdkFactory [methodGet, methodBare]
    (by decide) (by decide)]
  decide

/-! ## DashboardAspect lemmas -/

theorem aspect_visit_dashboard (opts : DashboardOptions) (s : AspectState)
    (n : Node) : (AspectState.visit opts s n).dashboard = s.dashboard := by
  unfold AspectState.visit
  split
  · rfl
  · split <;> split <;> split <;> split <;> split <;> rfl

theorem aspect_visit_generated (opts : DashboardOptions) (s : AspectState)
    (n : Node) :
    (AspectState.visit opts s n).dashboardGenerated
      = s.dashboardGenerated := by
  unfold AspectState.visit
  split
  · rfl
  · split <;> split <;> split <;> split <;> split <;> rfl

theorem runAspectVisits_dashboard (opts : DashboardOptions) :
    ∀ (ns : List Node) (s : AspectState),
    (runAspectVisits opts s ns).dashboard = s.dashboard
  | [], _ => rfl
  | n :: ns, s => by
    have ih := runAspectVisits_dashboard opts ns (AspectState.visit opts s n)
    unfold runAspectVisits at ih ⊢
    rw [List.foldl_cons, ih, aspect_visit_dashboard]

theorem runAspectVisits_generated (opts : DashboardOptions) :
    ∀ (ns : List Node) (s : AspectState),
    (runAspectVisits opts s ns).dashboardGenerated = s.dashboardGenerated
  | [], _ => rfl
  | n :: ns, s => by
    have ih := runAspectVisits_generated opts ns (AspectState.visit opts s n)
    unfold runAspectVisits at ih ⊢
    rw [List.foldl_cons, ih, aspect_visit_generated]

theorem aspect_visit_lambda_off (opts : DashboardOptions) (s : AspectState)
    (n : Node) (h : opts.includeLambda = some false) :
    (AspectState.visit opts s n).lambdaFunctions = s.lambdaFunctions := by
  unfold AspectState.visit
  split
  · rfl
  · split <;> split <;> split <;> split <;> split <;> simp_all

theorem aspect_visit_apigw_off (opts : DashboardOptions) (s : AspectState)
    (n : Node) (h : opts.includeApiGateway = some false) :
    (AspectState.visit opts s n).restApis = s.restApis := by
  unfold AspectState.visit
  split
  · rfl
  · split <;> split <;> split <;> split <;> split <;> simp_all

theorem aspect_visit_dynamo_off (opts : DashboardOptions) (s : AspectState)
    (n : Node) (h : opts.includeDynamoDB = some false) :
    (AspectState.visit opts s n).dynamoTables = s.dynamoTables := by
  unfold AspectState.visit
  split
  · rfl
  · split <;> split <;> split <;> split <;> split <;> simp_all

theorem aspect_visit_sns_off (opts : DashboardOptions) (s : AspectState)
    (n : Node) (h : opts.includeSNS = some false) :
    (AspectState.visit opts s n).snsTopics = s.snsTopics := by
  unfold AspectState.visit
  split
  · rfl
  · split <;> split <;> split <;> split <;> split <;> simp_all

theorem aspect_visit_sqs_off (opts : DashboardOptions) (s : AspectState)
    (n : Node) (h : opts.includeSQS = some false) :
    (AspectState.visit opts s n).sqsQueues = s.sqsQueues := by
  unfold AspectState.visit
  split
  · rfl
  · split <;> split <;> split <;> split <;> split <;> simp_all

theorem runAspectVisits_lambda_off (opts : DashboardOptions)
    (h : opts.includeLambda = some false) :
    ∀ (ns : List Node) (s : AspectState),
    (runAspectVisits opts s ns).lambdaFunctions = s.lambdaFunctions
  | [], _ => rfl
  | n :: ns, s => by
    have ih := runAspectVisits_lambda_off opts h ns (AspectState.visit opts s n)
    unfold runAspectVisits at ih ⊢
    rw [List.foldl_cons, ih, aspect_visit_lambda_off opts s n h]

theorem runAspectVisits_apigw_off (opts : DashboardOptions)
    (h : opts.includeApiGateway = some false) :
    ∀ (ns : List Node) (s : AspectState),
    (runAspectVisits opts s ns).restApis = s.restApis
  | [], _ => rfl
  | n :: ns, s => by
    have ih := runAspectVisits_apigw_off opts h ns (AspectState.visit opts s n)
    unfold runAspectVisits at ih ⊢
    rw [List.foldl_cons, ih, aspect_visit_apigw_off opts s n h]

theorem runAspectVisits_dynamo_off (opts : DashboardOptions)
    (h : opts.includeDynamoDB = some false) :
    ∀ (ns : List Node) (s : AspectState),
    (runAspectVisits opts s ns).dynamoTables = s.dynamoTables
  | [], _ => rfl
  | n :: ns, s => by
    have ih := runAspectVisits_dynamo_off opts h ns (AspectState.visit opts s n)
    unfold runAspectVisits at ih ⊢
    rw [List.foldl_cons, ih, aspect_visit_dynamo_off opts s n h]

theorem runAspectVisits_sns_off (opts : DashboardOptions)
    (h : opts.includeSNS = some false) :
    ∀ (ns : List Node) (s : AspectState),
    (runAspectVisits opts s ns).snsTopics = s.snsTopics
  | [], _ => rfl
  | n :: ns, s => by
    have ih := runAspectVisits_sns_off opts h ns (AspectState.visit opts s n)
    unfold runAspectVisits at ih ⊢
    rw [List.foldl_cons, ih, aspect_visit_sns_off opts s n h]

theorem runAspectVisits_sqs_off (opts : DashboardOptions)
    (h : opts.includeSQS = some false) :
    ∀ (ns : List Node) (s : AspectState),
    (runAspectVisits opts s ns).sqsQueues = s.sqsQueues
  | [], _ => rfl
  | n :: ns, s => by
    have ih := runAspectVisits_sqs_off opts h ns (AspectState.visit opts s n)
    unfold runAspectVisits at ih ⊢
    rw [List.foldl_cons, ih, aspect_visit_sqs_off opts s n h]

theorem generate_generated_noop (opts : DashboardOptions) (s : AspectState)
    (h : s.dashboardGenerated = true) :
    s.generateDashboard opts = (s, []) := by
  unfold AspectState.generateDashboard
  rw [if_pos h]

theorem generate_fst_generated (opts : DashboardOptions) (s : AspectState) :
    ((s.generateDashboard opts).fst).dashboardGenerated = true := by
  unfold AspectState.generateDashboard
  split
  · simp_all
  · split <;> split <;> split <;> split <;> split <;> rfl

theorem generate_char (opts : DashboardOptions) (s : AspectState)
    (h : s.dashboardGenerated = false) :
    s.generateDashboard opts =
      ({ s with
          dashboardGenerated := true,
          dashboard := s.dashboard
            ++ (if s.lambdaFunctions.length > 0 then
                 LambdaMetricProvider.createWidgets (aspectFactory opts)
                   (s.lambdaFunctions.map Node.asLambda) else [])
            ++ (if s.restApis.length > 0 then
                 ApiGatewayMetricProvider.createWidgets (aspectFactory opts)
                   (s.restApis.map Node.asRestApi) else [])
            ++ (if s.dynamoTables.length > 0 then
                 DynamoDBMetricProvider.createWidgets (aspectFactory opts)
                   (s.dynamoTables.map Node.asTable) else [])
            ++ (if s.snsTopics.length > 0 then
                 SNSMetricProvider.createWidgets (aspectFactory opts)
                   (s.snsTopics.map Node.asTopic) else [])
            ++ (if s.sqsQueues.length > 0 then
                 SQSMetricProvider.createWidgets (aspectFactory opts)
                   (s.sqsQueues.map Node.asQueue) else []) },
       (if s.lambdaFunctions.length > 0 then ["lambda"] else [])
         ++ (if s.restApis.length > 0 then ["apiGateway"] else [])
         ++ (if s.dynamoTables.length > 0 then ["dynamoDB"] else [])
         ++ (if s.snsTopics.length > 0 then ["sns"] else [])
         ++ (if s.sqsQueues.length > 0 then ["sqs"] else [])) := by
  unfold AspectState.generateDashboard
  rw [if_neg (by simp [h])]
  split <;> split <;> split <;> split <;> split <;>
    simp_all [List.append_assoc]

/-- Claim C7, counterexample: visit notifications arriving after
finalization are not rejected or ignored — a Lambda node visited after
`generateDashboard` has run is still appended to the (previously empty)
function bucket. -/
theorem counterexample_c7_visit_after_finalize :
    ((initAspect.generateDashboard {}).fst.visit {}
        aspectLambdaNode).lambdaFunctions = [aspectLambdaNode]
    ∧ (initAspect.generateDashboard {}).fst.dashboardGenerated = true
    ∧ (initAspect.generateDashboard {}).fst.lambdaFunctions = [] := by
  decide

/-- Claim C7, amended: finalization happens at most once — a second call
to `generateDashboard` is a no-op returning the state unchanged with no
provider invoked — and although visits after finalization still append to
the kind buckets, they never touch the published dashboard and never
re-run assembly: after any post-finalization visits the dashboard is
unchanged, the generated flag still holds, and a further generate call is
a no-op. -/
theorem claim_c7_amended_finalize :
    (∀ (opts : DashboardOptions) (s : AspectState),
      ((s.generateDashboard opts).fst.generateDashboard opts)
        = ((s.generateDashboard opts).fst, []))
    ∧ (∀ (opts : DashboardOptions) (s : AspectState) (ns : List Node),
        s.dashboardGenerated = true →
          (runAspectVisits opts s ns).dashboard = s.dashboard
          ∧ (runAspectVisits opts s ns).dashboardGenerated = true
          ∧ (runAspectVisits opts s ns).generateDashboard opts
              = (runAspectVisits opts s ns, [])) := by
  constructor
  · intro opts s
    exact generate_generated_noop opts _ (generate_fst_generated opts s)
  · intro opts s ns h
    have hg : (runAspectVisits opts s ns).dashboardGenerated = true := by
      rw [runAspectVisits_generated]
      exact h
    exact ⟨runAspectVisits_dashboard opts ns s, hg,
      generate_generated_noop opts _ hg⟩

theorem witness_c7 :
    ((initAspect.generateDashboard {}).fst.generateDashboard {})
        = ((initAspect.generateDashboard {}).fst, [])
    ∧ (runAspectVisits {} (initAspect.generateDashboard {}).fst
        [aspectLambdaNode]).dashboard
        = (initAspect.generateDashboard {}).fst.dashboard :=
  ⟨claim_c7_amended_finalize.1 {} initAspect,
   (claim_c7_amended_finalize.2 {} (initAspect.generateDashboard {}).fst
     [aspectLambdaNode] (by decide)).1⟩

/-- Claim C8: disabling a kind through its inclusion flag, with resources
of that kind present in the traversal, keeps that kind out of the final
published widget list (no widget carries one of that provider titles) and
that kind provider createWidgets is never invoked — its ghost label never
appears in the invocation record. -/
theorem claim_c8_inclusion_flags :
    (∀ (opts : DashboardOptions) (ns : List Node),
      opts.includeLambda = some false →
      (∃ n ∈ ns, tryGetLambda n = true) →
      "lambda" ∉
        ((runAspectVisits opts initAspect ns).generateDashboard opts).snd
      ∧ ∀ w ∈
          ((runAspectVisits opts initAspect ns).generateDashboard
            opts).fst.dashboard,
          w.title ∉ LambdaMetricProvider.titles)
    ∧ (∀ (opts : DashboardOptions) (ns : List Node),
      opts.includeApiGateway = some false →
      (∃ n ∈ ns, tryGetRestApi n = true) →
      "apiGateway" ∉
        ((runAspectVisits opts initAspect ns).generateDashboard opts).snd
      ∧ ∀ w ∈
          ((runAspectVisits opts initAspect ns).generateDashboard
            opts).fst.dashboard,
          w.title ∉ ApiGatewayMetricProvider.titles)
    ∧ (∀ (opts : DashboardOptions) (ns : List Node),
      opts.includeDynamoDB = some false →
      (∃ n ∈ ns, tryGetTable n = true) →
      "dynamoDB" ∉
        ((runAspectVisits opts initAspect ns).generateDashboard opts).snd
      ∧ ∀ w ∈
          ((runAspectVisits opts initAspect ns).generateDashboard
            opts).fst.dashboard,
          w.title ∉ DynamoDBMetricProvider.titles)
    ∧ (∀ (opts : DashboardOptions) (ns : List Node),
      opts.includeSNS = some false →
      (∃ n ∈ ns, tryGetTopic n = true) →
      "sns" ∉
        ((runAspectVisits opts initAspect ns).generateDashboard opts).snd
      ∧ ∀ w ∈
          ((runAspectVisits opts initAspect ns).generateDashboard
            opts).fst.dashboard,
          w.title ∉ SNSMetricProvider.titles)
    ∧ (∀ (opts : DashboardOptions) (ns : List Node),
      opts.includeSQS = some false →
      (∃ n ∈ ns, tryGetQueue n = true) →
      "sqs" ∉
        ((runAspectVisits opts initAspect ns).generateDashboard opts).snd
      ∧ ∀ w ∈
          ((runAspectVisits opts initAspect ns).generateDashboard
            opts).fst.dashboard,
          w.title ∉ SQSMetricProvider.titles) := by
  have hgen : ∀ (opts : DashboardOptions) (ns : List Node),
      (runAspectVisits opts initAspect ns).dashboardGenerated = false :=
    fun opts ns => by rw [runAspectVisits_generated]; rfl
  have hdash : ∀ (opts : DashboardOptions) (ns : List Node),
      (runAspectVisits opts initAspect ns).dashboard = [] :=
    fun opts ns => by rw [runAspectVisits_dashboard]; rfl
  refine ⟨?_, ?_, ?_, ?_, ?_⟩
  · intro opts ns hoff _
    have hb : (runAspectVisits opts initAspect ns).lambdaFunctions = [] := by
      rw [runAspectVisits_lambda_off opts hoff]; rfl
    rw [generate_char opts _ (hgen opts ns)]
    dsimp only
    rw [hb, hdash opts ns]
    simp only [List.length_nil, gt_iff_lt, lt_self_iff_false, ite_false,
      List.nil_append, List.append_nil]
    constructor
    · intro hmem
      simp only [List.mem_append] at hmem
      rcases hmem with ((h | h) | h) | h <;>
        exact absurd (mem_of_mem_ite_nil h) (by decide)
    · intro w hw
      simp only [List.mem_append] at hw
      rcases hw with ((h | h) | h) | h
      · have ht := apigw_title_mem _ _ w (mem_of_mem_ite_nil h)
        simp only [ApiGatewayMetricProvider.titles, List.mem_cons,
          List.not_mem_nil, or_false] at ht
        rcases ht with h1 | h1 | h1 | h1 <;> rw [h1] <;> decide
      · have ht := dynamo_title_mem _ _ w (mem_of_mem_ite_nil h)
        simp only [DynamoDBMetricProvider.titles, List.mem_cons,
          List.not_mem_nil, or_false] at ht
        rcases ht with h1 | h1 | h1 | h1 <;> rw [h1] <;> decide
      · have ht := sns_title_mem _ _ w (mem_of_mem_ite_nil h)
        simp only [SNSMetricProvider.titles, List.mem_cons,
          List.not_mem_nil, or_false] at ht
        rcases ht with h1 | h1 | h1 <;> rw [h1] <;> decide
      · have ht := sqs_title_mem _ _ w (mem_of_mem_ite_nil h)
        simp only [SQSMetricProvider.titles, List.mem_cons,
          List.not_mem_nil, or_false] at ht
        rcases ht with h1 | h1 | h1 | h1 <;> rw [h1] <;> decide
  · intro opts ns hoff _
    have hb : (runAspectVisits opts initAspect ns).restApis = [] := by
      rw [runAspectVisits_apigw_off opts hoff]; rfl
    rw [generate_char opts _ (hgen opts ns)]
    dsimp only
    rw [hb, hdash opts ns]
    simp only [List.length_nil, gt_iff_lt, lt_self_iff_false, ite_false,
      List.nil_append, List.append_nil]
    constructor
    · intro hmem
      simp only [List.mem_append] at hmem
      rcases hmem with ((h | h) | h) | h <;>
        exact absurd (mem_of_mem_ite_nil h) (by decide)
    · intro w hw
      simp only [List.mem_append] at hw
      rcases hw with ((h | h) | h) | h
      · have ht := lambda_title_mem _ _ w (mem_of_mem_ite_nil h)
        simp only [LambdaMetricProvider.titles, List.mem_cons,
          List.not_mem_nil, or_false] at ht
        rcases ht with h1 | h1 | h1 | h1 <;> rw [h1] <;> decide
      · have ht := dynamo_title_mem _ _ w (mem_of_mem_ite_nil h)
        simp only [DynamoDBMetricProvider.titles, List.mem_cons,
          List.not_mem_nil, or_false] at ht
        rcases ht with h1 | h1 | h1 | h1 <;> rw [h1] <;> decide
      · have ht := sns_title_mem _ _ w (mem_of_mem_ite_nil h)
        simp only [SNSMetricProvider.titles, List.mem_cons,
          List.not_mem_nil, or_false] at ht
        rcases ht with h1 | h1 | h1 <;> rw [h1] <;> decide
      · have ht := sqs_title_mem _ _ w (mem_of_mem_ite_nil h)
        simp only [SQSMetricProvider.titles, List.mem_cons,
          List.not_mem_nil, or_false] at ht
        rcases ht with h1 | h1 | h1 | h1 <;> rw [h1] <;> decide
  · intro opts ns hoff _
    have hb : (runAspectVisits opts initAspect ns).dynamoTables = [] := by
      rw [runAspectVisits_dynamo_off opts hoff]; rfl
    rw [generate_char opts _ (hgen opts ns)]
    dsimp only
    rw [hb, hdash opts ns]
    simp only [List.length_nil, gt_iff_lt, lt_self_iff_false, ite_false,
      List.nil_append, List.append_nil]
    constructor
    · intro hmem
      simp only [List.mem_append] at hmem
      rcases hmem with ((h | h) | h) | h <;>
        exact absurd (mem_of_mem_ite_nil h) (by decide)
    · intro w hw
      simp only [List.mem_append] at hw
      rcases hw with ((h | h) | h) | h
      · have ht := lambda_title_mem _ _ w (mem_of_mem_ite_nil h)
        simp only [LambdaMetricProvider.titles, List.mem_cons,
          List.not_mem_nil, or_false] at ht
        rcases ht with h1 | h1 | h1 | h1 <;> rw [h1] <;> decide
      · have ht := apigw_title_mem _ _ w (mem_of_mem_ite_nil h)
        simp only [ApiGatewayMetricProvider.titles, List.mem_cons,
          List.not_mem_nil, or_false] at ht
        rcases ht with h1 | h1 | h1 | h1 <;> rw [h1] <;> decide
      · have ht := sns_title_mem _ _ w (mem_of_mem_ite_nil h)
        simp only [SNSMetricProvider.titles, List.mem_cons,
          List.not_mem_nil, or_false] at ht
        rcases ht with h1 | h1 | h1 <;> rw [h1] <;> decide
      · have ht := sqs_title_mem _ _ w (mem_of_mem_ite_nil h)
        simp only [SQSMetricProvider.titles, List.mem_cons,
          List.not_mem_nil, or_false] at ht
        rcases ht with h1 | h1 | h1 | h1 <;> rw [h1] <;> decide
  · intro opts ns hoff _
    have hb : (runAspectVisits opts initAspect ns).snsTopics = [] := by
      rw [runAspectVisits_sns_off opts hoff]; rfl
    rw [generate_char opts _ (hgen opts ns)]
    dsimp only
    rw [hb, hdash opts ns]
    simp only [List.length_nil, gt_iff_lt, lt_self_iff_false, ite_false,
      List.nil_append, List.append_nil]
    constructor
    · intro hmem
      simp only [List.mem_append] at hmem
      rcases hmem with ((h | h) | h) | h <;>
        exact absurd (mem_of_mem_ite_nil h) (by decide)
    · intro w hw
      simp only [List.mem_append] at hw
      rcases hw with ((h | h) | h) | h
      · have ht := lambda_title_mem _ _ w (mem_of_mem_ite_nil h)
        simp only [LambdaMetricProvider.titles, List.mem_cons,
          List.not_mem_nil, or_false] at ht
        rcases ht with h1 | h1 | h1 | h1 <;> rw [h1] <;> decide
      · have ht := apigw_title_mem _ _ w (mem_of_mem_ite_nil h)
        simp only [ApiGatewayMetricProvider.titles, List.mem_cons,
          List.not_mem_nil, or_false] at ht
        rcases ht with h1 | h1 | h1 | h1 <;> rw [h1] <;> decide
      · have ht := dynamo_title_mem _ _ w (mem_of_mem_ite_nil h)
        simp only [DynamoDBMetricProvider.titles, List.mem_cons,
          List.not_mem_nil, or_false] at ht
        rcases ht with h1 | h1 | h1 | h1 <;> rw [h1] <;> decide
      · have ht := sqs_title_mem _ _ w (mem_of_mem_ite_nil h)
        simp only [SQSMetricProvider.titles, List.mem_cons,
          List.not_mem_nil, or_false] at ht
        rcases ht with h1 | h1 | h1 | h1 <;> rw [h1] <;> decide
  · intro opts ns hoff _
    have hb : (runAspectVisits opts initAspect ns).sqsQueues = [] := by
      rw [runAspectVisits_sqs_off opts hoff]; rfl
    rw [generate_char opts _ (hgen opts ns)]
    dsimp only
    rw [hb, hdash opts ns]
    simp only [List.length_nil, gt_iff_lt, lt_self_iff_false, ite_false,
      List.nil_append, List.append_nil]
    constructor
    · intro hmem
      simp only [List.mem_append] at hmem
      rcases hmem with ((h | h) | h) | h <;>
        exact absurd (mem_of_mem_ite_nil h) (by decide)
    · intro w hw
      simp only [List.mem_append] at hw
      rcases hw with ((h | h) | h) | h
      · have ht := lambda_title_mem _ _ w (mem_of_mem_ite_nil h)
        simp only [LambdaMetricProvider.titles, List.mem_cons,
          List.not_mem_nil, or_false] at ht
        rcases ht with h1 | h1 | h1 | h1 <;> rw [h1] <;> decide
      · have ht := apigw_title_mem _ _ w (mem_of_mem_ite_nil h)
        simp only [ApiGatewayMetricProvider.titles, List.mem_cons,
          List.not_mem_nil, or_false] at ht
        rcases ht with h1 | h1 | h1 | h1 <;> rw [h1] <;> decide
      · have ht := dynamo_title_mem _ _ w (mem_of_mem_ite_nil h)
        simp only [DynamoDBMetricProvider.titles, List.mem_cons,
          List.not_mem_nil, or_false] at ht
        rcases ht with h1 | h1 | h1 | h1 <;> rw [h1] <;> decide
      · have ht := sns_title_mem _ _ w (mem_of_mem_ite_nil h)
        simp only [SNSMetricProvider.titles, List.mem_cons,
          List.not_mem_nil, or_false] at ht
        rcases ht with h1 | h1 | h1 <;> rw [h1] <;> decide

theorem witness_c8 :
    ("sns" ∉ ((runAspectVisits { includeSNS := some false } initAspect
        [aspectTopicNode, aspectLambdaNode]).generateDashboard
        { includeSNS := some false }).snd)
    ∧ ∀ w ∈ ((runAspectVisits { includeSNS := some false } initAspect
        [aspectTopicNode, aspectLambdaNode]).generateDashboard
        { includeSNS := some false }).fst.dashboard,
        w.title ∉ SNSMetricProvider.titles :=
  claim_c8_inclusion_flags.2.2.2.1 { includeSNS := some false }
    [aspectTopicNode, aspectLambdaNode] rfl
    ⟨aspectTopicNode, by decide⟩
